import Mathlib

/-!
Verification development for the `universos` kernel runtime ("ParadoxOS").

This file is a shallow embedding of the kernel sources in Lean 4:
- `f64` values are modelled as exact rationals (`ℚ`); the two transcendental
  holes of the code (`f64::exp` inside `Universe::update_stability` and the
  gzip-based ParadoxLF compressor inside `StateVector::compress`) are threaded
  through as explicit function parameters (`fexp`, `cfn`), so every theorem
  quantifies over them and no theorem below depends on their values.
- Rust `u8` bytes are `Nat` with explicit `% 256` where the code wraps.
- `HashMap`/`HashSet` collections are modelled as association lists / lists in
  insertion order (Rust iteration order is unspecified; every concrete
  computation below is insensitive to it, and universal theorems do not use
  any ordering).
- fallible Rust functions return `Except`; a Rust index panic (which is not a
  returned error) is modelled by the distinguished `RunError.fault`.
- a handful of methods are called by `kernel.rs` but their definitions are
  absent from the provided sources (`Universe::execute_step`,
  `Interaction::push_event` / `process_events` / `pending_energy`,
  `StateVector::from_raw` / `new_raw` / `raw`, and the Universe field
  `instruction_pointer`). Those are modelled from the specification and each
  carries a doc comment saying so.
-/

/-! ## Constants (src/kernel/src/lib.rs, module `constants`) -/

def ENERGY_EPSILON : ℚ := 0.001

def STABILITY_THRESHOLD : ℚ := 0.3

def DEFAULT_DECAY_RATE : ℚ := 0.01

def MIN_ENTROPY_DELTA : ℚ := 0.0001

/-! ## StateVector (src/kernel/src/types.rs)

`StateVector` stores a byte buffer together with the original size and a
compression flag.  `compress` delegates to the external ParadoxLF/gzip
library, which is abstracted as the parameter `cfn` wherever it is used. -/

structure StateVector where
  data : List Nat
  original_size : Nat
  is_compressed : Bool
deriving DecidableEq, Repr

def StateVector.empty : StateVector := ⟨[], 0, false⟩

def StateVector.size (sv : StateVector) : Nat := sv.data.length

/-- `StateVector::compress` with the external compressor `cfn` abstracted. -/
def StateVector.compress (cfn : List Nat → List Nat) (d : List Nat) : StateVector :=
  ⟨cfn d, d.length, true⟩

/-- Modelled from the spec: `StateVector::from_raw` is called by `kernel.rs`
but absent from the provided sources.  The spec describes the event data
buffer as an opaque buffer that "may be compressed"; `from_raw` wraps raw
bytes without compressing. -/
def StateVector.from_raw (d : List Nat) : StateVector := ⟨d, d.length, false⟩

/-- Modelled from the spec: `StateVector::new_raw` (used by
`Kernel::load_program` to install raw executable code) is absent from the
provided sources; it stores the bytes uncompressed. -/
def StateVector.new_raw (d : List Nat) : StateVector := ⟨d, d.length, false⟩

/-- Modelled from the spec: `StateVector::raw` / `raw_mut` (byte views used by
`kernel.rs` and the VM) are absent from the provided sources; they expose the
stored buffer. -/
def StateVector.raw (sv : StateVector) : List Nat := sv.data

/-- `StateVector::potential_energy` (LAW 8): `0.001` J per byte saved; zero
for uncompressed or empty vectors. -/
def StateVector.potential_energy (sv : StateVector) : ℚ :=
  if ¬sv.is_compressed ∨ sv.original_size = 0 then 0
  else ((sv.original_size - sv.data.length : ℕ) : ℚ) * 0.001

/-! ## Events (src/kernel/src/interaction/event.rs) -/

inductive EventType where
  | EnergyTransfer | Signal | Entangle | Observation
  | Reversion | Branch | StateMigration | Cancellation
deriving DecidableEq, Repr

structure CausalEvent where
  id : Nat
  event_type : EventType
  source : Nat
  target : Nat
  energy_payload : ℚ
  data : StateVector
  creation_step : Nat
  cause_id : Option Nat
deriving DecidableEq, Repr

/-- `EventQueue::total_energy`: sum of queued payloads. -/
def queueEnergy (q : List CausalEvent) : ℚ := (q.map (·.energy_payload)).sum

/-! ## Universe (src/kernel/src/universe/universe.rs)

The `interaction_links` HashSet is modelled as a duplicate-free list in
insertion order.  The `instruction_pointer` field is assigned by
`Kernel::load_program` in `kernel.rs` but missing from the `Universe` struct
in the provided `universe.rs`; it is modelled from the spec ("instruction
pointer (index into memory)"). -/

structure Universe where
  id : Nat
  state_vector : StateVector
  energy : ℚ
  entropy : ℚ
  stability_score : ℚ
  timeline_index : ℤ
  interaction_links : List Nat
  creation_time : Nat
  last_evolution : Nat
  instruction_pointer : Nat
deriving DecidableEq, Repr

/-- `Universe::new`: entropy 0, stability 1, timeline 0, no links. -/
def Universe.new (id : Nat) (initial_energy : ℚ) : Universe :=
  ⟨id, StateVector.empty, initial_energy, 0, 1, 0, [], 0, 0, 0⟩

/-- `Universe::add_interaction` (HashSet insert). -/
def Universe.add_interaction (u : Universe) (iid : Nat) : Universe :=
  if iid ∈ u.interaction_links then u
  else { u with interaction_links := u.interaction_links ++ [iid] }

/-- `Universe::remove_interaction` (HashSet remove; the returned Bool is
unused by the kernel). -/
def Universe.remove_interaction (u : Universe) (iid : Nat) : Universe :=
  { u with interaction_links := u.interaction_links.filter (· ≠ iid) }

/-- `Universe::interaction_density`: attached-set cardinality as a float. -/
def Universe.interaction_density (u : Universe) : ℚ :=
  (u.interaction_links.length : ℚ)

/-- `Universe::internal_resistance`: `entropy * (1 - stability_score)`. -/
def Universe.internal_resistance (u : Universe) : ℚ :=
  u.entropy * (1 - u.stability_score)

/-- `Universe::should_collapse`. -/
def Universe.should_collapse (u : Universe) (threshold : ℚ) : Prop :=
  u.stability_score < threshold

/-- `Universe::advance_time`: `(1.0 / (1.0 + density)).ceil() as i64` when the
density is positive, else `1`. -/
def Universe.advance_time (u : Universe) : Universe :=
  let density := u.interaction_density
  let time_delta : ℤ := if density > 0 then ⌈(1 : ℚ) / (1 + density)⌉ else 1
  { u with timeline_index := u.timeline_index + time_delta }

/-- `Universe::increase_entropy`.  The Rust code asserts `delta ≥ 0` (a
programmer-contract panic); every kernel call site passes a non-negative
delta, and the addition itself is modelled directly. -/
def Universe.increase_entropy (u : Universe) (delta : ℚ) : Universe :=
  { u with entropy := u.entropy + delta }

/-! ## Errors (src/kernel/src/error.rs); string payloads are dropped. -/

inductive KernelError where
  | ConservationViolation (expected actual delta : ℚ)
  | EntropyDecrease (previous current delta : ℚ)
  | InsufficientEnergy (requested available : ℚ)
  | UniverseNotFound (id : Nat)
  | InteractionNotFound (id : Nat)
  | EvolutionBlocked (pressure resistance : ℚ)
  | InvalidCoupling (value : ℚ)
  | ForbiddenOperation
  | StateVectorError
  | Generic
deriving DecidableEq, Repr

/-- A run-time outcome distinguished from returned `KernelError`s: `fault`
models a Rust index panic (out-of-bounds `data.raw()[i]`). -/
inductive RunError where
  | fault
  | err (e : KernelError)
deriving DecidableEq, Repr

/-- Rust `f64::max` (no NaN in the rational model): if-based so that it
reduces in the kernel. -/
def maxQ (a b : ℚ) : ℚ := if a ≤ b then b else a

/-- Rust `f64::min`. -/
def minQ (a b : ℚ) : ℚ := if b ≤ a then b else a

/-- `Universe::transfer_energy`.  Rust mutates `self` in place and returns a
`Result`; the model returns the (possibly mutated) universe together with the
optional error.  Note the second check mutates before failing, exactly as the
source does. -/
def Universe.transfer_energy (u : Universe) (amount : ℚ) :
    Universe × Option KernelError :=
  if amount < 0 ∧ u.energy < |amount| then
    (u, some (.InsufficientEnergy |amount| u.energy))
  else
    let u1 := { u with energy := u.energy + amount }
    if u1.energy < 0 then
      (u1, some (.InsufficientEnergy |amount| (u1.energy - amount)))
    else
      (u1, none)

/-- Rust `f64::clamp`. -/
def clampQ (x lo hi : ℚ) : ℚ := minQ (maxQ x lo) hi

/-- `Universe::update_stability` with `f64::exp` abstracted as `fexp`. -/
def Universe.update_stability (fexp : ℚ → ℚ) (u : Universe) : Universe :=
  let entropy_factor := fexp (-u.entropy * 0.01)
  let energy_factor := if u.energy > 0 then minQ (u.energy / 100) 1 else 0
  { u with stability_score := clampQ (entropy_factor * energy_factor) 0 1 }

/-! ## Universe lifecycle (src/kernel/src/universe/lifecycle.rs) -/

/-- `Universe::branch`: deduct the memory-duplication cost, split the rest
50/50, child gets stability 0.5 and no links; parent entropy `+1`. -/
def Universe.branch (u : Universe) (new_id : Nat) :
    Except KernelError (Universe × Universe) :=
  let memory_cost := u.state_vector.potential_energy
  if u.energy < 10 + memory_cost then
    .error (.InsufficientEnergy (10 + memory_cost) u.energy)
  else
    let parent1 := { u with energy := u.energy - memory_cost }
    let branch_energy := parent1.energy / 2
    let parent2 := { parent1 with energy := parent1.energy / 2 }
    let branched : Universe :=
      { id := new_id, state_vector := u.state_vector, energy := branch_energy,
        entropy := u.entropy, stability_score := 0.5,
        timeline_index := u.timeline_index, interaction_links := [],
        creation_time := 0, last_evolution := 0,
        instruction_pointer := u.instruction_pointer }
    .ok (parent2.increase_entropy 1, branched)

structure UniverseSnapshot where
  state_vector : StateVector
  energy : ℚ
  entropy : ℚ
  stability_score : ℚ
  timeline_index : ℤ
deriving DecidableEq, Repr

/-- `Universe::snapshot`: copies memory, energy, entropy, stability, clock. -/
def Universe.snapshot (u : Universe) : UniverseSnapshot :=
  ⟨u.state_vector, u.energy, u.entropy, u.stability_score, u.timeline_index⟩

/-- `Universe::restore_from_snapshot`: overwrites the snapshotted fields,
except entropy which becomes `max(current, snapshot.entropy)` (LAW 2). -/
def Universe.restore_from_snapshot (u : Universe) (s : UniverseSnapshot) :
    Universe :=
  { u with state_vector := s.state_vector, energy := s.energy,
           entropy := maxQ u.entropy s.entropy,
           stability_score := s.stability_score,
           timeline_index := s.timeline_index }

/-! ## Scheduler (src/kernel/src/physics/scheduler.rs) -/

/-- `GravityScheduler::calculate_priority`: stability times the efficiency
factor `1/(1+0.01*entropy)` times a flow factor that divides pressure by the
internal resistance only when the resistance exceeds `0.0001`. -/
def GravityScheduler.calculate_priority (u : Universe) (pressure : ℚ) : ℚ :=
  let stability_factor := u.stability_score
  let efficiency_factor := 1 / (1 + u.entropy * 0.01)
  let resistance := u.internal_resistance
  let flow_factor := if resistance > 0.0001 then pressure / resistance else pressure
  maxQ (stability_factor * efficiency_factor * flow_factor) 0

/-! ## Interaction (src/kernel/src/interaction/interaction.rs) -/

structure Interaction where
  id : Nat
  source : Nat
  target : Nat
  coupling_strength : ℚ
  momentum : ℚ
  decay_rate : ℚ
  age : Nat
  total_energy_transferred : ℚ
  forward_events : List CausalEvent
  backward_events : List CausalEvent
deriving DecidableEq, Repr

/-- `Interaction::new`: rejects a coupling outside `[0,1]`. -/
def Interaction.new (id source target : Nat) (coupling_strength : ℚ) :
    Except KernelError Interaction :=
  if ¬(0 ≤ coupling_strength ∧ coupling_strength ≤ 1) then
    .error (.InvalidCoupling coupling_strength)
  else
    .ok ⟨id, source, target, coupling_strength, 0, DEFAULT_DECAY_RATE, 0, 0, [], []⟩

/-- `Interaction::apply_decay`: multiply coupling by `1 - decay_rate`, clamp
at 0, increment age. -/
def Interaction.apply_decay (i : Interaction) : Interaction :=
  { i with coupling_strength := maxQ (i.coupling_strength * (1 - i.decay_rate)) 0,
           age := i.age + 1 }

/-- `Interaction::calculate_energy_transfer`. -/
def Interaction.calculate_energy_transfer (i : Interaction) (step_fraction : ℚ) : ℚ :=
  i.coupling_strength * i.momentum * step_fraction

/-- `Interaction::record_transfer`. -/
def Interaction.record_transfer (i : Interaction) (amount : ℚ) : Interaction :=
  { i with total_energy_transferred := i.total_energy_transferred + |amount| }

/-- `Interaction::is_active`: coupling above `0.001`. -/
def Interaction.is_active (i : Interaction) : Bool :=
  i.coupling_strength > 0.001

/-- `Interaction::set_momentum`: `(e_src - e_tgt) * coupling * 0.01`. -/
def Interaction.set_momentum (i : Interaction) (energy_source energy_target : ℚ) :
    Interaction :=
  { i with momentum := (energy_source - energy_target) * i.coupling_strength * 0.01 }

/-- Modelled from the spec: `Interaction::push_event` is called by
`Kernel::route_event` but absent from the provided sources.  The spec says it
"enqueues in whichever queue matches the event's direction; unknown
directions are an error" (MissingEndpoint, surfaced here as
`InteractionNotFound`-style `Generic`). -/
def Interaction.push_event (i : Interaction) (ev : CausalEvent) :
    Except KernelError Interaction :=
  if ev.source = i.source ∧ ev.target = i.target then
    .ok { i with forward_events := i.forward_events ++ [ev] }
  else if ev.source = i.target ∧ ev.target = i.source then
    .ok { i with backward_events := i.backward_events ++ [ev] }
  else
    .error .Generic

/-- Modelled from the spec: `Interaction::process_events` is called by
`Kernel::propagate_events` but absent from the provided sources.  The spec
prescribes single-hop delivery — an event pushed at tick T is delivered at the
first propagation pass after T — so the model drains both FIFO queues,
forward queue first. -/
def Interaction.process_events (i : Interaction) :
    Interaction × List CausalEvent :=
  ({ i with forward_events := [], backward_events := [] },
   i.forward_events ++ i.backward_events)

/-- Modelled from the spec: `Interaction::pending_energy` is called by
`Kernel::calculate_total_energy` but absent from the provided sources; the
spec's `in_transit_energy()` "returns the sum of event payloads across both
queues". -/
def Interaction.pending_energy (i : Interaction) : ℚ :=
  queueEnergy i.forward_events + queueEnergy i.backward_events

/-! ## The VM (src/kernel/src/universe/isa.rs)

`UniversalProcessor::step` works on the raw memory `Vec<u8>`.  Every raw Rust
indexing operation (`state[i]`, slicing) is instrumented through `Option`:
the step returns `none` exactly when the Rust code would have panicked on an
out-of-bounds access.  Theorem `C2` proves this never happens. -/

inductive OpCode where
  | NoOp | AtomSet | AtomXor | AtomCopy | Add | Sub | Cmp
  | Jump | JumpIf | Call | Ret | Push | Pop
  | Signal | Entangle | Observe | Revert | Branch
  | MemAlloc | MemMap | MemSwap | Halt
deriving DecidableEq, Repr

/-- `OpCode::from_u8`. -/
def OpCode.from_u8 (v : Nat) : Option OpCode :=
  if v = 0x00 then some .NoOp
  else if v = 0x01 then some .AtomSet
  else if v = 0x02 then some .AtomXor
  else if v = 0x03 then some .AtomCopy
  else if v = 0x04 then some .Add
  else if v = 0x05 then some .Sub
  else if v = 0x06 then some .Cmp
  else if v = 0x10 then some .Jump
  else if v = 0x11 then some .JumpIf
  else if v = 0x20 then some .Call
  else if v = 0x21 then some .Ret
  else if v = 0x22 then some .Push
  else if v = 0x23 then some .Pop
  else if v = 0xF0 then some .Signal
  else if v = 0xF1 then some .Entangle
  else if v = 0xF2 then some .Observe
  else if v = 0xF3 then some .Revert
  else if v = 0xF4 then some .Branch
  else if v = 0xA0 then some .MemAlloc
  else if v = 0xA1 then some .MemMap
  else if v = 0xA2 then some .MemSwap
  else if v = 0xFF then some .Halt
  else none

/-- Instrumented read `state[i]`: fails (Rust panic) when out of bounds. -/
def rd (m : List Nat) (i : Nat) : Option Nat :=
  if i < m.length then some (m.getD i 0) else none

/-- Instrumented write `state[i] = v`. -/
def wr (m : List Nat) (i v : Nat) : Option (List Nat) :=
  if i < m.length then some (m.set i v) else none

/-- Instrumented slice `state[start..start+len].to_vec()`. -/
def sliceRd (m : List Nat) (start len : Nat) : Option (List Nat) :=
  if start + len ≤ m.length then some ((m.drop start).take len) else none

/-- Write a block of values at consecutive addresses (the `COPY` loop). -/
def writeSeq : List Nat → Nat → List Nat → Option (List Nat)
  | m, _, [] => some m
  | m, d, v :: vs => do
    let m1 ← wr m d v
    writeSeq m1 (d + 1) vs

/-- `u8::wrapping_add`. -/
def wadd (a b : Nat) : Nat := (a + b) % 256

/-- `u8::wrapping_sub`. -/
def wsub (a b : Nat) : Nat := (a % 256 + 256 - b % 256) % 256

/-- Result of one VM step: new memory, next IP, energy cost, optional event. -/
abbrev StepResult := List Nat × Nat × ℚ × Option CausalEvent

/-- `UniversalProcessor::step`.  `cfn` abstracts the ParadoxLF compressor
used for SIGNAL payloads.  The `MultiversalMemory` side table touched only by
`MEM_SWAP` (a recompression of a shared page, not of this universe's memory)
is outside every claim and not threaded through; `MEM_SWAP`'s memory reads,
cost and IP advance are modelled faithfully. -/
def UniversalProcessor.step (cfn : List Nat → List Nat) (state : List Nat)
    (ip : Nat) : Option StepResult :=
  if ip ≥ state.length then some (state, 0, 0, none)
  else do
  let b ← rd state ip
  let op := (OpCode.from_u8 b).getD .NoOp
  match op with
  | .NoOp => some (state, ip + 1, 0.0001, none)
  | .AtomSet =>
    if ip + 2 < state.length then do
      let addr ← rd state (ip + 1)
      let val ← rd state (ip + 2)
      if state.length > addr then do
        let old ← rd state addr
        let cost : ℚ := if old ≠ val then 0.0001 + 0.01 else 0.0001
        let st ← wr state addr val
        some (st, ip + 3, cost, none)
      else some (state, ip + 3, 0.0001, none)
    else some (state, ip + 1, 0.0001, none)
  | .AtomXor =>
    if ip + 2 < state.length then do
      let addr ← rd state (ip + 1)
      let val ← rd state (ip + 2)
      if state.length > addr then do
        let old ← rd state addr
        let st ← wr state addr (Nat.xor old val)
        some (st, ip + 3, 0.0001 + 0.005, none)
      else some (state, ip + 3, 0.0001, none)
    else some (state, ip + 1, 0.0001, none)
  | .AtomCopy =>
    if ip + 3 < state.length then do
      let src ← rd state (ip + 1)
      let dest ← rd state (ip + 2)
      let len ← rd state (ip + 3)
      if src + len ≤ state.length ∧ dest + len ≤ state.length then do
        let slice ← sliceRd state src len
        let st ← writeSeq state dest slice
        some (st, ip + 4, 0.0001 + 0.001 * (len : ℚ), none)
      else some (state, ip + 4, 0.0001, none)
    else some (state, ip + 1, 0.0001, none)
  | .Add =>
    if ip + 2 < state.length then do
      let dest ← rd state (ip + 1)
      let src ← rd state (ip + 2)
      if dest < state.length ∧ src < state.length then do
        let dv ← rd state dest
        let sv ← rd state src
        let st ← wr state dest (wadd dv sv)
        some (st, ip + 3, 0.0001 + 0.002, none)
      else some (state, ip + 3, 0.0001, none)
    else some (state, ip + 1, 0.0001, none)
  | .Sub =>
    if ip + 2 < state.length then do
      let dest ← rd state (ip + 1)
      let src ← rd state (ip + 2)
      if dest < state.length ∧ src < state.length then do
        let dv ← rd state dest
        let sv ← rd state src
        let st ← wr state dest (wsub dv sv)
        some (st, ip + 3, 0.0001 + 0.002, none)
      else some (state, ip + 3, 0.0001, none)
    else some (state, ip + 1, 0.0001, none)
  | .Cmp =>
    if ip + 3 < state.length then do
      let a_addr ← rd state (ip + 1)
      let b_addr ← rd state (ip + 2)
      let r_addr ← rd state (ip + 3)
      if a_addr < state.length ∧ b_addr < state.length ∧ r_addr < state.length then do
        let a ← rd state a_addr
        let b2 ← rd state b_addr
        let st ← wr state r_addr (if a > b2 then 1 else if a = b2 then 0 else 255)
        some (st, ip + 4, 0.0001 + 0.001, none)
      else some (state, ip + 4, 0.0001, none)
    else some (state, ip + 1, 0.0001, none)
  | .Jump =>
    if ip + 1 < state.length then do
      let target ← rd state (ip + 1)
      some (state, target, 0.0001 + 0.0005, none)
    else some (state, ip + 1, 0.0001, none)
  | .JumpIf =>
    if ip + 2 < state.length then do
      let cond_addr ← rd state (ip + 1)
      let target ← rd state (ip + 2)
      if state.length > cond_addr then do
        let c ← rd state cond_addr
        if c ≠ 0 then some (state, target, 0.0001, none)
        else some (state, ip + 3, 0.0001, none)
      else some (state, ip + 3, 0.0001, none)
    else some (state, ip + 1, 0.0001, none)
  | .Call =>
    if ip + 1 < state.length then do
      let target ← rd state (ip + 1)
      if 255 < state.length then do
        let sp ← rd state 255
        let return_addr := (ip + 2) % 256
        if sp > 0 ∧ sp < state.length then do
          let st1 ← wr state sp return_addr
          let spv ← rd st1 255
          let st2 ← wr st1 255 (wsub spv 1)
          some (st2, target, 0.0001 + 0.003, none)
        else some (state, target, 0.0001 + 0.003, none)
      else some (state, ip + 1, 0.0001, none)
    else some (state, ip + 1, 0.0001, none)
  | .Ret =>
    if 255 < state.length then do
      let spv ← rd state 255
      let sp := wadd spv 1
      if sp < state.length then do
        let st1 ← wr state 255 sp
        let nip ← rd st1 sp
        some (st1, nip, 0.0001 + 0.002, none)
      else some (state, ip + 1, 0.0001, none)
    else some (state, ip + 1, 0.0001, none)
  | .Push =>
    if ip + 1 < state.length then do
      let addr ← rd state (ip + 1)
      if addr < state.length ∧ 255 < state.length then do
        let sp ← rd state 255
        if sp > 0 ∧ sp < state.length then do
          let av ← rd state addr
          let st1 ← wr state sp av
          let spv ← rd st1 255
          let st2 ← wr st1 255 (wsub spv 1)
          some (st2, ip + 2, 0.0001 + 0.002, none)
        else some (state, ip + 2, 0.0001, none)
      else some (state, ip + 2, 0.0001, none)
    else some (state, ip + 1, 0.0001, none)
  | .Pop =>
    if ip + 1 < state.length then do
      let addr ← rd state (ip + 1)
      if addr < state.length ∧ 255 < state.length then do
        let spv ← rd state 255
        let sp := wadd spv 1
        if sp < state.length then do
          let st1 ← wr state 255 sp
          let sv ← rd st1 sp
          let st2 ← wr st1 addr sv
          some (st2, ip + 2, 0.0001 + 0.002, none)
        else some (state, ip + 2, 0.0001, none)
      else some (state, ip + 2, 0.0001, none)
    else some (state, ip + 1, 0.0001, none)
  | .Signal =>
    if ip + 3 < state.length then do
      let target_id ← rd state (ip + 1)
      let len ← rd state (ip + 2)
      if ip + 3 + len ≤ state.length then do
        let d ← sliceRd state (ip + 3) len
        let ev : CausalEvent :=
          ⟨0, .Signal, 0, target_id, 1, StateVector.compress cfn d, 0, none⟩
        some (state, ip + 3 + len + 1, 0.0001 + 0.001 + (len : ℚ) * 0.0001, some ev)
      else some (state, ip + 2, 0.0001, none)
    else some (state, ip + 2, 0.0001, none)
  | .Entangle =>
    if ip + 2 < state.length then do
      let target_id ← rd state (ip + 1)
      let s8 ← rd state (ip + 2)
      let strength : ℚ := (s8 : ℚ) / 255
      let ev : CausalEvent :=
        ⟨0, .Entangle, 0, target_id, strength * 10, StateVector.from_raw [s8], 0, none⟩
      some (state, ip + 3, 0.0001 + 5, some ev)
    else some (state, ip + 1, 0.0001, none)
  | .Observe =>
    if ip + 3 < state.length then do
      let t ← rd state (ip + 1)
      let mt ← rd state (ip + 2)
      let da ← rd state (ip + 3)
      let ev : CausalEvent :=
        ⟨0, .Observation, 0, t, 0.1, StateVector.from_raw [mt, da], 0, none⟩
      some (state, ip + 4, 0.0001 + 0.5, some ev)
    else some (state, ip + 1, 0.0001, none)
  | .Revert =>
    if ip + 1 < state.length then do
      let steps ← rd state (ip + 1)
      let ev : CausalEvent :=
        ⟨0, .Reversion, 0, 0, (steps : ℚ) * 2, StateVector.from_raw [steps], 0, none⟩
      some (state, ip + 2, 0.0001 + 2, some ev)
    else some (state, ip + 1, 0.0001, none)
  | .Branch =>
    if ip + 2 < state.length then do
      let e ← rd state (ip + 1)
      let da ← rd state (ip + 2)
      let ev : CausalEvent :=
        ⟨0, .Branch, 0, 0, (e : ℚ), StateVector.from_raw [da], 0, none⟩
      some (state, ip + 3, 0.0001 + 10, some ev)
    else some (state, ip + 1, 0.0001, none)
  | .MemAlloc =>
    if ip + 2 < state.length then some (state, ip + 3, 0.0001 + 1, none)
    else some (state, ip + 1, 0.0001, none)
  | .MemMap =>
    if ip + 2 < state.length then some (state, ip + 3, 0.0001 + 2, none)
    else some (state, ip + 1, 0.0001, none)
  | .MemSwap =>
    if ip + 1 < state.length then do
      let _v_addr ← rd state (ip + 1)
      some (state, ip + 2, 0.0001 + 0.5, none)
    else some (state, ip + 1, 0.0001, none)
  | .Halt => some (state, ip, 0, none)

/-! ## Association-list plumbing (`HashMap` in insertion order) -/

def alookup {α : Type} : List (Nat × α) → Nat → Option α
  | [], _ => none
  | (k, v) :: t, k2 => if k = k2 then some v else alookup t k2

/-- `HashMap::insert`: replace the existing entry or append. -/
def ainsert {α : Type} : List (Nat × α) → Nat → α → List (Nat × α)
  | [], k, v => [(k, v)]
  | (k1, v1) :: t, k, v =>
    if k1 = k then (k, v) :: t else (k1, v1) :: ainsert t k v

/-- `HashMap::get_mut` followed by a mutation: update the entry in place. -/
def aupdate {α : Type} : List (Nat × α) → Nat → (α → α) → List (Nat × α)
  | [], _, _ => []
  | (k1, v1) :: t, k, f =>
    if k1 = k then (k1, f v1) :: t else (k1, v1) :: aupdate t k f

/-- `HashMap::remove`, returning the removed value when present. -/
def aremove {α : Type} : List (Nat × α) → Nat → Option α × List (Nat × α)
  | [], _ => (none, [])
  | (k1, v1) :: t, k =>
    if k1 = k then (some v1, t)
    else
      let r := aremove t k
      (r.1, (k1, v1) :: r.2)

/-! ## Universe execution (spec §4.2 / kernel.rs step 7) -/

/-- Modelled from the spec: `Universe::execute_step` is called by
`Kernel::evolve_universes` but absent from the provided sources.  Per the
spec (§4.2 and §4.6): the VM runs one step against the universe's memory and
reports an energy cost; the cost is deducted from the universe (the kernel
comment "The cost was deducted from the universe" confirms this); an emitted
event carries placeholder source/id which are filled in before routing, and
its payload energy is debited separately from the source universe.  The
`none` branch of the instrumented VM step is unreachable (theorem `C2`). -/
def Universe.execute_step (cfn : List Nat → List Nat) (u : Universe) :
    Universe × ℚ × Option CausalEvent :=
  match UniversalProcessor.step cfn u.state_vector.data u.instruction_pointer with
  | none => (u, 0, none)
  | some (m, ip, cost, ev) =>
    let u1 := { u with state_vector := { u.state_vector with data := m },
                       instruction_pointer := ip,
                       energy := u.energy - cost }
    match ev with
    | none => (u1, cost, none)
    | some e =>
      ({ u1 with energy := u1.energy - e.energy_payload }, cost,
       some { e with source := u.id })

/-! ## Scheduler task selection (scheduler.rs `schedule` + `next_tasks`)

The Rust scheduler rebuilds a `BinaryHeap` from scratch each tick and pops up
to `count` tasks in decreasing priority (tie order among equal priorities is
unspecified by `BinaryHeap`; the model keeps insertion order). -/

def insertDesc (x : Nat × ℚ) : List (Nat × ℚ) → List (Nat × ℚ)
  | [] => [x]
  | y :: t => if y.2 < x.2 then x :: y :: t else y :: insertDesc x t

def sortDesc : List (Nat × ℚ) → List (Nat × ℚ)
  | [] => []
  | x :: t => insertDesc x (sortDesc t)

/-- `GravityScheduler::schedule` followed by `next_tasks count`: keep the
universes whose priority exceeds `0.0001`, in decreasing priority. -/
def scheduledTasks (universes : List (Nat × Universe))
    (pressures : List (Nat × ℚ)) (count : Nat) : List (Nat × ℚ) :=
  let tasks := universes.filterMap fun p =>
    let pr := GravityScheduler.calculate_priority p.2 ((alookup pressures p.1).getD 0)
    if pr > 0.0001 then some (p.1, pr) else none
  (sortDesc tasks).take count

/-! ## Kernel (src/kernel/src/physics/kernel.rs)

The embedding covers kernels with no registered hardware drivers, which is
how `Kernel::new` starts and how every state in this file is built
(`add_driver` is never called): `sync_drivers` therefore produces no
incoming events and the `SystemPulse` is always `None`, so it is omitted
from the state and from `evolutionStep`'s result.  The `InteractionField`
spatial index is carried along as registered by `create_interaction`. -/

structure KernelSnapshot where
  global_energy : ℚ
  global_entropy : ℚ
  universes : List (Nat × Universe)
  interactions : List (Nat × Interaction)
  evolution_step : Nat
  energy_radiated : ℚ
  energy_materialized : ℚ
deriving DecidableEq, Repr

structure InteractionField where
  adjacency : List (Nat × List (Nat × Nat))
deriving DecidableEq, Repr

/-- `InteractionField::register_interaction`. -/
def InteractionField.register_interaction (f : InteractionField)
    (id source target : Nat) : InteractionField :=
  let push := fun (fld : InteractionField) (u other : Nat) =>
    match alookup fld.adjacency u with
    | some l => ⟨aupdate fld.adjacency u (fun _ => l ++ [(id, other)])⟩
    | none => ⟨fld.adjacency ++ [(u, [(id, other)])]⟩
  push (push f source target) target source

structure Kernel where
  global_energy : ℚ
  global_entropy : ℚ
  universes : List (Nat × Universe)
  interactions : List (Nat × Interaction)
  next_universe_id : Nat
  next_interaction_id : Nat
  evolution_step : Nat
  initial_total_energy : ℚ
  interaction_field : InteractionField
  next_event_id : Nat
  history : List KernelSnapshot
  energy_radiated : ℚ
  energy_materialized : ℚ
deriving DecidableEq, Repr

/-- `Kernel::new` (the Big Bang). -/
def Kernel.new (initial_energy : ℚ) : Kernel :=
  { global_energy := initial_energy, global_entropy := 0, universes := [],
    interactions := [], next_universe_id := 1, next_interaction_id := 1,
    evolution_step := 0, initial_total_energy := initial_energy,
    interaction_field := ⟨[]⟩, next_event_id := 1, history := [],
    energy_radiated := 0, energy_materialized := 0 }

/-- `Kernel::spawn_universe`. -/
def Kernel.spawn_universe (k : Kernel) (initial_energy : ℚ) :
    Except RunError (Nat × Kernel) :=
  if initial_energy > k.global_energy then
    .error (.err (.InsufficientEnergy initial_energy k.global_energy))
  else
    let id := k.next_universe_id
    let u := { Universe.new id initial_energy with creation_time := k.evolution_step }
    .ok (id, { k with
      next_universe_id := k.next_universe_id + 1,
      global_energy := k.global_energy - initial_energy,
      global_entropy := k.global_entropy + (1 + initial_energy / 100),
      universes := ainsert k.universes id u })

/-- `Kernel::inject_energy`. -/
def Kernel.inject_energy (k : Kernel) (target_id : Nat) (amount : ℚ) :
    Except RunError Kernel :=
  if amount > k.global_energy then
    .error (.err (.InsufficientEnergy amount k.global_energy))
  else
    match alookup k.universes target_id with
    | none => .error (.err (.UniverseNotFound target_id))
    | some _ =>
      .ok { k with
        universes := aupdate k.universes target_id
          (fun u => { u with energy := u.energy + amount }),
        global_energy := k.global_energy - amount }

/-- `Kernel::branch_universe`. -/
def Kernel.branch_universe (k : Kernel) (parent_id : Nat) :
    Except RunError (Nat × Kernel) :=
  let new_id := k.next_universe_id
  match alookup k.universes parent_id with
  | none => .error (.err (.UniverseNotFound parent_id))
  | some parent =>
    match parent.branch new_id with
    | .error e => .error (.err e)
    | .ok (parent1, branched) =>
      let branched1 := { branched with creation_time := k.evolution_step }
      .ok (new_id, { k with
        universes := ainsert (aupdate k.universes parent_id (fun _ => parent1))
          new_id branched1,
        next_universe_id := k.next_universe_id + 1,
        global_entropy := k.global_entropy + 0.5 })

/-- `Kernel::create_interaction`. -/
def Kernel.create_interaction (k : Kernel) (source target : Nat)
    (coupling_strength : ℚ) : Except RunError (Nat × Kernel) :=
  if (alookup k.universes source).isNone then
    .error (.err (.UniverseNotFound source))
  else if (alookup k.universes target).isNone then
    .error (.err (.UniverseNotFound target))
  else
    let id := k.next_interaction_id
    match Interaction.new id source target coupling_strength with
    | .error e => .error (.err e)
    | .ok i =>
      .ok (id, { k with
        next_interaction_id := k.next_interaction_id + 1,
        universes := aupdate
          (aupdate k.universes source (fun u => u.add_interaction id))
          target (fun u => u.add_interaction id),
        interaction_field := k.interaction_field.register_interaction id source target,
        global_entropy := k.global_entropy + 0.5,
        interactions := ainsert k.interactions id i })

/-- `Kernel::calculate_interaction_pressure`. -/
def Kernel.calculate_interaction_pressure (k : Kernel) (universe_id : Nat) : ℚ :=
  match alookup k.universes universe_id with
  | none => 0
  | some u =>
    (u.interaction_links.map fun iid =>
      match alookup k.interactions iid with
      | some i => i.coupling_strength * |i.momentum|
      | none => 0).sum

/-- `Kernel::calculate_total_energy`: pool + universe energies + in-transit
energy of both queues of every interaction. -/
def Kernel.calculate_total_energy (k : Kernel) : ℚ :=
  (k.universes.map (fun p => p.2.energy)).sum
    + (k.interactions.map (fun p => p.2.pending_energy)).sum
    + k.global_energy

/-- `Kernel::energy_flux`. -/
def Kernel.energy_flux (k : Kernel) : ℚ :=
  k.energy_materialized - k.energy_radiated

/-- `Kernel::collapse_universe`: remove the universe, return `max(energy,0)`
to the pool, release its entropy, and drop every interaction listed in its
link set from the interaction table.  (Note: the surviving endpoints' link
sets and the interaction field are not touched.) -/
def Kernel.collapse_universe (k : Kernel) (id : Nat) :
    Except RunError (Universe × Kernel) :=
  match aremove k.universes id with
  | (none, _) => .error (.err (.UniverseNotFound id))
  | (some u, rest) =>
    let k1 := { k with universes := rest,
                       global_energy := k.global_energy + maxQ u.energy 0,
                       global_entropy := k.global_entropy + u.entropy }
    .ok (u, { k1 with
      interactions := u.interaction_links.foldl
        (fun acc iid => (aremove acc iid).2) k1.interactions })

/-- `Kernel::capture_snapshot`: push, evicting the oldest beyond 100. -/
def Kernel.capture_snapshot (k : Kernel) : Kernel :=
  let h := k.history ++ [⟨k.global_energy, k.global_entropy, k.universes,
    k.interactions, k.evolution_step, k.energy_radiated, k.energy_materialized⟩]
  { k with history := if h.length > 100 then h.drop 1 else h }

/-- `Kernel::rewind`: jump back to `history[len - max(steps,1)]` and truncate
the later snapshots; `false` when the history is empty or the index misses. -/
def Kernel.rewind (k : Kernel) (steps : Nat) : Bool × Kernel :=
  if k.history.isEmpty then (false, k)
  else
    let target_index := k.history.length - max steps 1
    match k.history.get? target_index with
    | none => (false, k)
    | some s =>
      (true, { k with
        global_energy := s.global_energy, global_entropy := s.global_entropy,
        universes := s.universes, interactions := s.interactions,
        evolution_step := s.evolution_step,
        energy_radiated := s.energy_radiated,
        energy_materialized := s.energy_materialized,
        history := k.history.take target_index })

/-- `laws::should_collapse` (LAW 9). -/
def laws.should_collapse (stability : ℚ) : Bool :=
  stability < STABILITY_THRESHOLD

/-- Rust `f64 as u8`: truncate toward zero, saturating into `0..=255`. -/
def castU8 (q : ℚ) : Nat :=
  if q ≤ 0 then 0 else min 255 (Int.toNat ⌊q⌋)

/-- `Kernel::load_program`. -/
def Kernel.load_program (k : Kernel) (universe_id : Nat) (code : List Nat) :
    Except RunError Kernel :=
  match alookup k.universes universe_id with
  | none => .error (.err (.UniverseNotFound universe_id))
  | some _ =>
    let reset := fun (u : Universe) =>
      { u with state_vector := StateVector.new_raw code, instruction_pointer := 0 }
    .ok { k with universes := aupdate k.universes universe_id reset }

/-- `Kernel::route_event`.  System-level event types are handled by the
kernel itself; other types are pushed into a matching interaction, dropped
with a warning ("spontaneous entanglement") when none exists, or radiated to
the drivers when the target is not local.  `RunError.fault` marks the places
where the Rust code indexes `event.data.raw()` unconditionally. -/
def Kernel.route_event (k : Kernel) (ev : CausalEvent) : Except RunError Kernel :=
  match ev.event_type with
  | .Entangle =>
    match ev.data.raw.get? 0 with
    | none => .error .fault
    | some b =>
      let k1 := match k.create_interaction ev.source ev.target ((b : ℚ) / 255) with
        | .ok (_, k2) => k2
        | .error _ => k
      .ok { k1 with global_energy := k1.global_energy + ev.energy_payload }
  | .Observation =>
    match alookup k.universes ev.target with
    | none => .ok { k with global_energy := k.global_energy + ev.energy_payload }
    | some t =>
      match ev.data.raw.get? 0, ev.data.raw.get? 1 with
      | some mt, some da =>
        let val := if mt = 0 then castU8 (t.energy / 10)
          else if mt = 1 then castU8 (t.entropy / 10)
          else if mt = 2 then castU8 (t.stability_score * 255)
          else 0
        let k1 := match alookup k.universes ev.source with
          | some s =>
            if da < s.state_vector.raw.length then
              { k with universes := aupdate k.universes ev.source (fun u =>
                  { u with state_vector :=
                      { u.state_vector with data := u.state_vector.data.set da val } }) }
            else k
          | none => k
        .ok { k1 with global_energy := k1.global_energy + ev.energy_payload }
      | _, _ => .error .fault
  | .Reversion =>
    match ev.data.raw.get? 0 with
    | none => .error .fault
    | some steps =>
      let k1 := (k.rewind steps).2
      .ok { k1 with global_energy := k1.global_energy + ev.energy_payload }
  | .Branch =>
    match ev.data.raw.get? 0 with
    | none => .error .fault
    | some dest =>
      match k.branch_universe ev.source with
      | .ok (new_id, k1) =>
        let k2 := if ev.energy_payload > 0 then
            match k1.inject_energy new_id ev.energy_payload with
            | .ok k3 => k3
            | .error _ => k1
          else k1
        match alookup k2.universes ev.source with
        | some s =>
          if dest < s.state_vector.raw.length then
            .ok { k2 with universes := aupdate k2.universes ev.source (fun u =>
              { u with state_vector :=
                  { u.state_vector with data := u.state_vector.data.set dest (new_id % 256) } }) }
          else .ok k2
        | none => .ok k2
      | .error _ =>
        .ok { k with global_energy := k.global_energy + ev.energy_payload }
  | _ =>
    if (alookup k.universes ev.target).isSome then
      match k.interactions.find? (fun p =>
          (p.2.source == ev.source && p.2.target == ev.target)
            || (p.2.source == ev.target && p.2.target == ev.source)) with
      | some (iid, i) =>
        match i.push_event ev with
        | .ok i2 => .ok { k with interactions := aupdate k.interactions iid (fun _ => i2) }
        | .error e => .error (.err e)
      | none => .ok k
    else
      .ok { k with energy_radiated := k.energy_radiated + ev.energy_payload }

/-- `Kernel::spawn_event`: debit the payload from the source universe when
(and only when) it exists, mint a fresh event id, and route.  (In the
unreachable second error branch of `transfer_energy` the Rust mutation would
survive the early return; the model returns the error alone, which coincides
with Rust on every state with non-negative energies.) -/
def Kernel.spawn_event (k : Kernel) (source target : Nat) (ty : EventType)
    (data : List Nat) (energy : ℚ) : Except RunError (Nat × Kernel) :=
  let deducted : Except RunError Kernel :=
    match alookup k.universes source with
    | some u =>
      let r := u.transfer_energy (-energy)
      match r.2 with
      | some e => .error (.err e)
      | none => .ok { k with universes := aupdate k.universes source (fun _ => r.1) }
    | none => .ok k
  match deducted with
  | .error e => .error e
  | .ok k1 =>
    let id := k1.next_event_id
    let k2 := { k1 with next_event_id := k1.next_event_id + 1 }
    let ev : CausalEvent :=
      ⟨id, ty, source, target, energy, StateVector.from_raw data, k2.evolution_step, none⟩
    match k2.route_event ev with
    | .ok k3 => .ok (id, k3)
    | .error e => .error e

/-- `Kernel::propagate_events`: drain every interaction first, then credit
each arrived event's payload to its target universe — when the target is
still in the table. -/
def Kernel.propagate_events (k : Kernel) : Kernel :=
  let drained := k.interactions.map (fun p => (p.1, p.2.process_events))
  let k1 := { k with interactions := drained.map (fun p => (p.1, p.2.1)) }
  let delivered := (drained.map (fun p => p.2.2)).flatten
  delivered.foldl (fun acc e =>
    if (alookup acc.universes e.target).isSome then
      { acc with universes := aupdate acc.universes e.target (fun u =>
          { u with energy := u.energy + e.energy_payload }) }
    else acc) k1

/-- `Kernel::compute_entropy_gradients`. -/
def Kernel.compute_entropy_gradients (k : Kernel) : Kernel :=
  { k with global_entropy :=
      k.global_entropy + MIN_ENTROPY_DELTA * (k.universes.length : ℚ) }

/-- `Kernel::redistribute_energy`: decay every interaction; for each active
one with both endpoints present, refresh its momentum from the endpoint
energies and gather a transfer when it exceeds `ENERGY_EPSILON`; then apply
all transfers (each side through `transfer_energy`, errors discarded) and
record them.  The final conservation re-check only produces a warning. -/
def Kernel.redistribute_energy (k : Kernel) : Kernel :=
  let ints1 := k.interactions.map (fun p => (p.1, p.2.apply_decay))
  let processed := ints1.map (fun p =>
    if p.2.is_active then
      match alookup k.universes p.2.source, alookup k.universes p.2.target with
      | some s, some t =>
        let i1 := p.2.set_momentum s.energy t.energy
        let tr := i1.calculate_energy_transfer 0.01
        ((p.1, i1),
         if |tr| > ENERGY_EPSILON then some (p.2.source, p.2.target, tr, p.1) else none)
      | _, _ => ((p.1, p.2), none)
    else ((p.1, p.2), none))
  let k1 := { k with interactions := processed.map (·.1) }
  (processed.filterMap (·.2)).foldl (fun acc tr =>
    let (sid, tid, amount, iid) := tr
    let acc1 := if (alookup acc.universes sid).isSome then
        { acc with universes := aupdate acc.universes sid (fun u =>
            (u.transfer_energy (-amount)).1) }
      else acc
    let acc2 := if (alookup acc1.universes tid).isSome then
        { acc1 with universes := aupdate acc1.universes tid (fun u =>
            (u.transfer_energy amount).1) }
      else acc1
    if (alookup acc2.interactions iid).isSome then
      { acc2 with interactions := aupdate acc2.interactions iid (fun i =>
          i.record_transfer amount) }
    else acc2) k1

/-- `Kernel::evolve_universes`: schedule by gravity priority, then for each
task advance local time, add `rate*0.1` entropy, refresh stability, stamp
`last_evolution`, run one VM step, return its cost to the pool and collect
the emitted event; finally route the collected events (routing errors are
only warned; a routing panic aborts). -/
def Kernel.evolve_universes (fexp : ℚ → ℚ) (cfn : List Nat → List Nat)
    (k : Kernel) : Option Kernel :=
  let pressures := k.universes.map (fun p => (p.1, k.calculate_interaction_pressure p.1))
  let updates := scheduledTasks k.universes pressures k.universes.length
  let kev := updates.foldl (fun (acc : Kernel × List CausalEvent) upd =>
    match alookup acc.1.universes upd.1 with
    | none => acc
    | some u =>
      let u1 := ((u.advance_time).increase_entropy (upd.2 * 0.1)).update_stability fexp
      let u2 := { u1 with last_evolution := acc.1.evolution_step }
      let r := u2.execute_step cfn
      let k1 := { acc.1 with
        universes := aupdate acc.1.universes upd.1 (fun _ => r.1),
        global_energy := acc.1.global_energy + r.2.1 }
      (k1, acc.2 ++ r.2.2.toList)) (k, [])
  kev.2.foldlM (fun acc e =>
    match acc.route_event e with
    | .ok k2 => some k2
    | .error .fault => none
    | .error (.err _) => some acc) kev.1

/-- `Kernel::collapse_unstable_universes`. -/
def Kernel.collapse_unstable_universes (k : Kernel) : Kernel :=
  let to_collapse := (k.universes.filter
    (fun p => laws.should_collapse p.2.stability_score)).map (·.1)
  to_collapse.foldl (fun acc id =>
    match acc.collapse_universe id with
    | .ok (_, k2) => k2
    | .error _ => acc) k

inductive Anomaly where
  | negativeEnergyBreach
  | stabilityInjection
deriving DecidableEq, Repr

/-- `SecurityAuditor::detect_anomalies`: negative energy or stability above
1. -/
def SecurityAuditor.detect_anomalies (k : Kernel) : List (Nat × Anomaly) :=
  (k.universes.map (fun p =>
    (if p.2.energy < 0 then [(p.1, Anomaly.negativeEnergyBreach)] else [])
      ++ (if p.2.stability_score > 1 then [(p.1, Anomaly.stabilityInjection)] else []))).flatten

/-- `SecurityAuditor::verify_global_integrity` (audit tolerance 0.05; the
result is only logged by the kernel). -/
def SecurityAuditor.verify_global_integrity (k : Kernel) : Prop :=
  |k.calculate_total_energy - (k.initial_total_energy + k.energy_flux)| ≤ 0.05

/-- `Kernel::evolution_step`, the per-tick pipeline.  Pure logging steps
(`observe_interactions`, the conservation warnings, `verify_laws`) do not
change state; with no registered drivers `sync_drivers` yields no incoming
events and a `None` pulse.  The result is `none` only if routing a
VM-generated event panicked. -/
def Kernel.evolutionStep (fexp : ℚ → ℚ) (cfn : List Nat → List Nat)
    (k : Kernel) : Option Kernel := do
  let k1 := { k with evolution_step := k.evolution_step + 1 }
  let k2 := k1.compute_entropy_gradients
  let k3 := k2.redistribute_energy
  let k4 := k3.propagate_events
  let k5 ← k4.evolve_universes fexp cfn
  let k6 := k5.collapse_unstable_universes
  let k7 := k6.capture_snapshot
  let anomalies := SecurityAuditor.detect_anomalies k7
  let k8 := anomalies.foldl (fun acc p =>
    match acc.collapse_universe p.1 with
    | .ok (_, k9) => k9
    | .error _ => acc) k7
  some k8

/-! ## Assembler (src/kernel/src/compiler/assembler.rs)

A two-pass, line-oriented text assembler.  To keep every computation
kernel-reducible, strings are processed as their underlying character lists
(`String.toList`); the inputs of interest are ASCII, where Rust byte lengths
and `as_bytes` coincide with character counts and `Char.toNat`.  Error
messages are abbreviated (the Rust ones are `format!` strings). -/

def slookup {α : Type} : List (List Char × α) → List Char → Option α
  | [], _ => none
  | (k, v) :: t, k2 => if k = k2 then some v else slookup t k2

def sinsert {α : Type} : List (List Char × α) → List Char → α → List (List Char × α)
  | [], k, v => [(k, v)]
  | (k1, v1) :: t, k, v =>
    if k1 = k then (k, v) :: t else (k1, v1) :: sinsert t k v

/-- Split a character list at every occurrence of `c` (like `splitOn` with a
one-character separator). -/
def splitChar (c : Char) : List Char → List (List Char)
  | [] => [[]]
  | x :: t =>
    let r := splitChar c t
    if x = c then [] :: r
    else match r with
      | [] => [[x]]
      | h :: t2 => (x :: h) :: t2

/-- Rust `str::lines`: split at newlines, dropping one `\r` before each
newline and a trailing empty line. -/
def rustLines (s : List Char) : List (List Char) :=
  let parts := (splitChar (Char.ofNat 10) s).map fun l =>
    if l.getLast? = some (Char.ofNat 13) then l.dropLast else l
  match parts.getLast? with
  | some [] => parts.dropLast
  | _ => parts

/-- Rust `str::trim`. -/
def trimL (s : List Char) : List Char :=
  ((s.dropWhile Char.isWhitespace).reverse.dropWhile Char.isWhitespace).reverse

/-- Rust `str::starts_with` for a literal. -/
def startsWithL (p s : List Char) : Bool :=
  decide (s.take p.length = p)

/-- Rust `str::ends_with` for a literal. -/
def endsWithL (p s : List Char) : Bool :=
  decide (s.reverse.take p.length = p.reverse)

/-- Accumulator pass for `split_whitespace`. -/
def splitWsAux : List Char → List Char → List (List Char)
  | [], cur => if cur = [] then [] else [cur.reverse]
  | c :: t, cur =>
    if c.isWhitespace then
      if cur = [] then splitWsAux t [] else cur.reverse :: splitWsAux t []
    else splitWsAux t (c :: cur)

/-- Rust `str::split_whitespace`: non-empty chunks between whitespace runs. -/
def splitWhitespace (s : List Char) : List (List Char) := splitWsAux s []

/-- Rust `u8::from_str` (as used by `parse::<u8>()`): an optional sign, one
or more ASCII digits, value at most 255 (overflow is an error). -/
def parseU8 (s : List Char) : Option Nat :=
  let ds := match s with
    | '+' :: rest => rest
    | _ => s
  if ds ≠ [] ∧ ds.all Char.isDigit then
    let v := ds.foldl (fun acc c => acc * 10 + (c.toNat - 48)) 0
    if v ≤ 255 then some v else none
  else none

/-- Rust `str::to_uppercase` (ASCII range). -/
def toUpperL (s : List Char) : List Char := s.map Char.toUpper

/-- Rust `str::splitn(3, ' ')`: at most three pieces, the last keeping its
remaining spaces. -/
def splitn3Space (s : List Char) : List (List Char) :=
  match splitChar (Char.ofNat 32) s with
  | [] => []
  | [a] => [a]
  | [a, b] => [a, b]
  | a :: b :: rest => [a, b, (rest.intersperse [Char.ofNat 32]).flatten]

/-- Byte length of a SIGNAL payload argument in pass 1: quotes stripped when
the rest of the line is a quoted literal. -/
def signalPayloadLen (rest : List Char) : Nat :=
  if startsWithL ['"'] rest ∧ endsWithL ['"'] rest then rest.length - 2
  else rest.length

/-- Pass 1 state: labels, definitions, current byte offset. -/
abbrev Pass1State := List (List Char × Nat) × List (List Char × Nat) × Nat

/-- Pass 1 over one (line number, line): symbol discovery and offsets. -/
def pass1Line (acc : Pass1State) (ln : Nat × List Char) :
    Except (List Char) Pass1State :=
  let (labels, defs, off) := acc
  let trimmed := trimL ln.2
  if trimmed = [] ∨ startsWithL ['#'] trimmed ∨ startsWithL ['/', '/'] trimmed then
    .ok acc
  else if startsWithL ['.', 'd', 'e', 'f'] trimmed then
    let parts := splitWhitespace trimmed
    if parts.length < 3 then .error ("def requires name and value".toList)
    else match parseU8 (parts.getD 2 []) with
      | none => .error ("Invalid def value".toList)
      | some v => .ok (labels, sinsert defs (parts.getD 1 []) v, off)
  else if endsWithL [':'] trimmed then
    .ok (sinsert labels trimmed.dropLast off, defs, off)
  else
    let parts := splitWhitespace trimmed
    match parts with
    | [] => .ok acc
    | w :: _ =>
      let up := toUpperL w
      if up = "NOP".toList ∨ up = "RET".toList ∨ up = "HALT".toList then
        .ok (labels, defs, off + 1)
      else if up = "PUSH".toList ∨ up = "POP".toList ∨ up = "JUMP".toList
          ∨ up = "JMP".toList ∨ up = "CALL".toList then
        .ok (labels, defs, off + 2)
      else if up = "SET".toList ∨ up = "XOR".toList ∨ up = "ADD".toList
          ∨ up = "SUB".toList ∨ up = "JUMPIF".toList ∨ up = "JIF".toList
          ∨ up = "JNZ".toList then
        .ok (labels, defs, off + 3)
      else if up = "COPY".toList ∨ up = "CMP".toList ∨ up = "SIGNAL".toList then
        if up = "SIGNAL".toList then
          let rest := (splitn3Space trimmed).getD 2 []
          .ok (labels, defs, off + 3 + signalPayloadLen rest)
        else .ok (labels, defs, off + 4)
      else .error ("Unknown opcode".toList)

/-- Pass 2 argument resolution: decimal literal, then `.def` name, then label
(the label offset is truncated `as u8`). -/
def resolveArg (defs labels : List (List Char × Nat)) (arg : List Char) :
    Except (List Char) Nat :=
  match parseU8 arg with
  | some v => .ok v
  | none =>
    match slookup defs arg with
    | some v => .ok v
    | none =>
      match slookup labels arg with
      | some off => .ok (off % 256)
      | none => .error ("Unknown symbol".toList)

/-- Pass 2 over one line: code generation.  A missing argument index (a Rust
panic site) resolves the empty string, which fails like an unknown symbol. -/
def pass2Line (defs labels : List (List Char × Nat)) (acc : List Nat)
    (ln : Nat × List Char) : Except (List Char) (List Nat) :=
  let trimmed := trimL ln.2
  if trimmed = [] ∨ startsWithL ['#'] trimmed ∨ startsWithL ['/', '/'] trimmed
      ∨ startsWithL ['.', 'd', 'e', 'f'] trimmed ∨ endsWithL [':'] trimmed then
    .ok acc
  else
    let parts := splitWhitespace trimmed
    match parts with
    | [] => .ok acc
    | w :: _ =>
      let arg := fun (i : Nat) => resolveArg defs labels (parts.getD i [])
      let up := toUpperL w
      if up = "NOP".toList then .ok (acc ++ [0x00])
      else if up = "SET".toList then do
        let a ← arg 1
        let b ← arg 2
        .ok (acc ++ [0x01, a, b])
      else if up = "XOR".toList then do
        let a ← arg 1
        let b ← arg 2
        .ok (acc ++ [0x02, a, b])
      else if up = "COPY".toList then do
        let a ← arg 1
        let b ← arg 2
        let c ← arg 3
        .ok (acc ++ [0x03, a, b, c])
      else if up = "ADD".toList then do
        let a ← arg 1
        let b ← arg 2
        .ok (acc ++ [0x04, a, b])
      else if up = "SUB".toList then do
        let a ← arg 1
        let b ← arg 2
        .ok (acc ++ [0x05, a, b])
      else if up = "CMP".toList then do
        let a ← arg 1
        let b ← arg 2
        let c ← arg 3
        .ok (acc ++ [0x06, a, b, c])
      else if up = "JUMP".toList ∨ up = "JMP".toList then do
        let a ← arg 1
        .ok (acc ++ [0x10, a])
      else if up = "JUMPIF".toList ∨ up = "JIF".toList ∨ up = "JNZ".toList then do
        let a ← arg 1
        let b ← arg 2
        .ok (acc ++ [0x11, a, b])
      else if up = "CALL".toList then do
        let a ← arg 1
        .ok (acc ++ [0x20, a])
      else if up = "RET".toList then .ok (acc ++ [0x21])
      else if up = "PUSH".toList then do
        let a ← arg 1
        .ok (acc ++ [0x22, a])
      else if up = "POP".toList then do
        let a ← arg 1
        .ok (acc ++ [0x23, a])
      else if up = "SIGNAL".toList then do
        let target ← arg 1
        let rest := (splitn3Space trimmed).getD 2 []
        let payload :=
          if startsWithL ['"'] rest ∧ endsWithL ['"'] rest then
            (rest.drop 1).dropLast.map Char.toNat
          else rest.map Char.toNat
        if payload.length > 255 then .error ("Payload too long".toList)
        else .ok (acc ++ [0xF0, target, payload.length] ++ payload)
      else if up = "HALT".toList then .ok (acc ++ [0xFF])
      else .ok acc

/-- `assemble`: two passes over the numbered lines. -/
def assemble (source : String) : Except (List Char) (List Nat) := do
  let ls := (rustLines source.toList).enum
  let p1 ← ls.foldlM pass1Line ([], [], 0)
  ls.foldlM (pass2Line p1.2.1 p1.1) []

/-! ## Claim vocabulary -/

/-- Invariant I4 as a boolean check: every interaction id attached to a live
universe is a key of the interaction table and that interaction lists the
universe as an endpoint. -/
def kernelInv (k : Kernel) : Bool :=
  k.universes.all fun p =>
    p.2.interaction_links.all fun iid =>
      match alookup k.interactions iid with
      | some i => i.source == p.1 || i.target == p.1
      | none => false

/-- The priority formula exactly as claim C4 words it:
`max(0, stability · (1/(1+0.01·entropy)) · (pressure / max(resistance, 10⁻⁴)))`. -/
def prioritySpecClaim (u : Universe) (pressure : ℚ) : ℚ :=
  maxQ 0 (u.stability_score * (1 / (1 + 0.01 * u.entropy))
    * (pressure / maxQ u.internal_resistance 0.0001))

/-- The amended priority formula: the resistance divides the pressure only
when it exceeds `10⁻⁴`; otherwise the flow factor is the raw pressure. -/
def prioritySpecAmended (u : Universe) (pressure : ℚ) : ℚ :=
  if u.internal_resistance > 0.0001 then
    maxQ 0 (u.stability_score * (1 / (1 + 0.01 * u.entropy))
      * (pressure / u.internal_resistance))
  else
    maxQ 0 (u.stability_score * (1 / (1 + 0.01 * u.entropy)) * pressure)

/-- Per-opcode guard offset: the step's operand check is
`ip + operandCheckOff op < state.len()` (for SIGNAL the data bytes add a
second check). -/
def operandCheckOff : OpCode → Nat
  | .NoOp | .Ret | .Halt => 0
  | .Jump | .Call | .Push | .Pop | .Revert | .MemSwap => 1
  | .AtomSet | .AtomXor | .Add | .Sub | .JumpIf
  | .Entangle | .Branch | .MemAlloc | .MemMap => 2
  | .AtomCopy | .Cmp | .Observe | .Signal => 3

/-- The instruction at `ip` has operand bytes out of range: the code's
operand-fit guard fails (for SIGNAL, either the `target`/`len` header or the
`len` data bytes do not fit). -/
def operandsOutOfRange (m : List Nat) (ip : Nat) : Bool :=
  match (OpCode.from_u8 (m.getD ip 0)).getD .NoOp with
  | .NoOp | .Ret | .Halt => false
  | .Signal =>
    decide (¬ (ip + 3 < m.length ∧ ip + 3 + m.getD (ip + 2) 0 ≤ m.length))
  | op => decide (¬ (ip + operandCheckOff op < m.length))

/-! ## Concrete scenarios used by the claims -/

/-- Claim C1's failing input: pool 1000, two universes of 100 J each, then a
5 J signal spawned between them with no interaction — the routed event is
dropped ("spontaneous entanglement") after the 5 J debit. -/
def c1Kernel : Except RunError Kernel := do
  let r1 ← (Kernel.new 1000).spawn_universe 100
  let r2 ← r1.2.spawn_universe 100
  let r3 ← r2.2.spawn_event 1 2 .Signal [] 5
  pure r3.2

/-- One full tick on the C1 state.  The parameters are irrelevant on this
path (no universe reaches the scheduling threshold). -/
def c1Evolved (fexp : ℚ → ℚ) (cfn : List Nat → List Nat) : Option Kernel :=
  match c1Kernel with
  | .ok k => k.evolutionStep fexp cfn
  | .error _ => none

/-- Claim C3's failing input, fields: one live universe `1`, and interaction
`7` between `1` and the removed universe `2` holding an arrived 5 J event for
`2` (forward) and an arrived 3 J event for `1` (backward). -/
def c3u1 : Universe := Universe.new 1 100

def c3evMissing : CausalEvent := ⟨11, .Signal, 1, 2, 5, StateVector.from_raw [], 0, none⟩

def c3evPresent : CausalEvent := ⟨10, .Signal, 2, 1, 3, StateVector.from_raw [], 0, none⟩

def c3inter : Interaction :=
  { id := 7, source := 1, target := 2, coupling_strength := 0.5, momentum := 0,
    decay_rate := DEFAULT_DECAY_RATE, age := 0, total_energy_transferred := 0,
    forward_events := [c3evMissing], backward_events := [c3evPresent] }

def c3kernel : Kernel :=
  { Kernel.new 0 with universes := [(1, c3u1)], interactions := [(7, c3inter)] }

/-- Claim C5's counterexample run: create an interaction between two spawned
universes, then collapse one endpoint. -/
def c5kernel : Except RunError Kernel := do
  let r1 ← (Kernel.new 1000).spawn_universe 100
  let r2 ← r1.2.spawn_universe 100
  let r3 ← r2.2.create_interaction r1.1 r2.1 0.5
  let r4 ← r3.2.collapse_universe r1.1
  pure r4.2

/-- Claim C9's program text. -/
def c9Source : String := "SET 100 42\nSIGNAL 3 \"hi\"\nHALT"

/-! ## Helper lemmas -/

theorem maxQ_eq_max (a b : ℚ) : maxQ a b = max a b := by
  rw [maxQ, max_def]

theorem alookup_ainsert {α : Type} (l : List (Nat × α)) (k : Nat) (v : α)
    (x : Nat) :
    alookup (ainsert l k v) x = if k = x then some v else alookup l x := by
  induction l with
  | nil => rfl
  | cons h t ih =>
    obtain ⟨k1, v1⟩ := h
    rw [ainsert]
    by_cases hk : k1 = k
    · rw [if_pos hk]
      by_cases hx : k = x
      · rw [alookup, if_pos hx, if_pos hx]
      · rw [alookup, if_neg hx, if_neg hx, alookup,
          if_neg (fun he => hx (hk.symm.trans he))]
    · rw [if_neg hk]
      by_cases hx : k1 = x
      · have hkx : ¬ k = x := fun he => hk (hx.trans he.symm)
        rw [alookup, if_pos hx, if_neg hkx, alookup, if_pos hx]
      · rw [alookup, if_neg hx, ih, alookup, if_neg hx]

theorem mem_aupdate {α : Type} {l : List (Nat × α)} {k : Nat} {f : α → α}
    {p : Nat × α} (hp : p ∈ aupdate l k f) :
    p ∈ l ∨ ∃ v, (k, v) ∈ l ∧ p = (k, f v) := by
  induction l with
  | nil => simp [aupdate] at hp
  | cons h t ih =>
    obtain ⟨k1, v1⟩ := h
    by_cases hk : k1 = k
    · rw [aupdate, if_pos hk] at hp
      rcases List.mem_cons.mp hp with h1 | h1
      · right
        exact ⟨v1, by simp [hk], by rw [h1, hk]⟩
      · left
        exact List.mem_cons_of_mem _ h1
    · rw [aupdate, if_neg hk] at hp
      rcases List.mem_cons.mp hp with h1 | h1
      · left
        simp [h1]
      · rcases ih h1 with h2 | ⟨v, hv, hpv⟩
        · left
          exact List.mem_cons_of_mem _ h2
        · right
          exact ⟨v, List.mem_cons_of_mem _ hv, hpv⟩

/-! ## Claims -/

/-- Claim C1 (code_bug evidence): from the reachable state built by
`c1Kernel` — pool 1000, two 100 J universes, a 5 J signal spawned with no
connecting interaction (dropped after the debit) — one `evolution_step`
ends with total energy 995 while the baseline is 1000 and no flux has
crossed the node boundary: the ledger identity misses by 5, far beyond the
10⁻³ tolerance. -/
theorem C1 (fexp : ℚ → ℚ) (cfn : List Nat → List Nat) :
    (c1Evolved fexp cfn).map (fun k =>
      (k.calculate_total_energy, k.initial_total_energy,
       k.energy_radiated, k.energy_materialized)) = some (995, 1000, 0, 0) ∧
    ¬ (|(995 : ℚ) + 0 - 0 - 1000| ≤ ENERGY_EPSILON) := by
  constructor
  · norm_num [c1Evolved, c1Kernel, Kernel.new, Kernel.spawn_universe, Kernel.spawn_event,
      Kernel.route_event, Kernel.evolutionStep, Kernel.compute_entropy_gradients,
      Kernel.redistribute_energy, Kernel.propagate_events, Kernel.evolve_universes,
      Kernel.collapse_unstable_universes, Kernel.capture_snapshot,
      Kernel.calculate_interaction_pressure, Kernel.calculate_total_energy,
      Kernel.collapse_universe, SecurityAuditor.detect_anomalies,
      scheduledTasks, sortDesc, insertDesc, GravityScheduler.calculate_priority,
      Universe.new, Universe.transfer_energy, Universe.internal_resistance,
      laws.should_collapse, STABILITY_THRESHOLD, MIN_ENTROPY_DELTA, ENERGY_EPSILON,
      maxQ, alookup, ainsert, aupdate, aremove,
      Interaction.pending_energy, queueEnergy, StateVector.from_raw, StateVector.empty,
      Except.bind, Except.map, bind, pure, Except.pure, Option.bind]
  · rw [ENERGY_EPSILON]
    rw [show (995 : ℚ) + 0 - 0 - 1000 = -5 by norm_num, abs_neg, abs_of_nonneg (by norm_num)]
    norm_num

/-- Claim C3 (code_bug evidence): propagating the `c3kernel` state delivers
the 3 J event to the live universe 1, but the 5 J payload addressed to the
removed universe 2 simply vanishes — the global pool stays at 0 instead of
receiving it, and the total energy drops from 108 to 103. -/
theorem C3 :
    c3kernel.propagate_events.global_energy = 0 ∧
    alookup c3kernel.propagate_events.universes 1 = some { c3u1 with energy := 103 } ∧
    c3kernel.calculate_total_energy = 108 ∧
    c3kernel.propagate_events.calculate_total_energy = 103 := by
  norm_num [c3kernel, Kernel.propagate_events, Kernel.new, Kernel.calculate_total_energy,
    Interaction.process_events, Interaction.pending_energy, queueEnergy,
    c3inter, c3u1, c3evMissing, c3evPresent, alookup, aupdate, Universe.new,
    StateVector.from_raw, StateVector.empty]

/-- Claim C4, counterexample: a freshly created universe has entropy 0 and
stability 1, hence internal resistance 0 ≤ 10⁻⁴; with pressure 1 the
scheduler computes priority 1, while the claimed formula
`max(0, stability · (1/(1+0.01·entropy)) · (pressure/max(resistance,10⁻⁴)))`
yields 10000. -/
theorem C4_counterexample :
    GravityScheduler.calculate_priority (Universe.new 1 100) 1 = 1 ∧
    prioritySpecClaim (Universe.new 1 100) 1 = 10000 ∧
    GravityScheduler.calculate_priority (Universe.new 1 100) 1 ≠
      prioritySpecClaim (Universe.new 1 100) 1 := by
  refine ⟨?_, ?_, ?_⟩ <;>
    norm_num [GravityScheduler.calculate_priority, prioritySpecClaim, Universe.new,
      Universe.internal_resistance, maxQ]

/-- Claim C4, amended: for every universe and pressure, the Gravity priority
equals `max(0, stability · (1/(1+0.01·entropy)) · flow)` where the flow
factor is `pressure/resistance` when the internal resistance exceeds 10⁻⁴
and the raw `pressure` otherwise (the code never divides by the clamped
resistance). -/
theorem C4 (u : Universe) (pressure : ℚ) :
    GravityScheduler.calculate_priority u pressure = prioritySpecAmended u pressure := by
  by_cases h : u.internal_resistance > (0.0001 : ℚ)
  · simp only [GravityScheduler.calculate_priority, prioritySpecAmended, if_pos h,
      maxQ_eq_max]
    rw [max_comm]
    congr 1
    ring
  · simp only [GravityScheduler.calculate_priority, prioritySpecAmended, if_neg h,
      maxQ_eq_max]
    rw [max_comm]
    congr 1
    ring

theorem mem_add_links (u : Universe) (id iid : Nat) :
    iid ∈ (u.add_interaction id).interaction_links ↔
      iid ∈ u.interaction_links ∨ iid = id := by
  unfold Universe.add_interaction
  split_ifs with h
  · constructor
    · exact fun hm => Or.inl hm
    · rintro (hm | rfl)
      · exact hm
      · exact h
  · simp [List.mem_append]

theorem inv_lookup {k : Kernel} (h1 : kernelInv k = true) {p : Nat × Universe}
    (hp : p ∈ k.universes) {iid : Nat}
    (hiid : iid ∈ p.2.interaction_links) :
    ∃ i, alookup k.interactions iid = some i ∧ (i.source = p.1 ∨ i.target = p.1) := by
  rw [kernelInv, List.all_eq_true] at h1
  have h2 := h1 p hp
  rw [List.all_eq_true] at h2
  have h3 := h2 iid hiid
  cases halk : alookup k.interactions iid with
  | none => rw [halk] at h3; cases h3
  | some i =>
    rw [halk] at h3
    refine ⟨i, rfl, ?_⟩
    rcases Bool.or_eq_true_iff.mp h3 with h4 | h4 <;> simp only [beq_iff_eq] at h4
    · exact Or.inl h4
    · exact Or.inr h4

theorem mem_ainsert {α : Type} {l : List (Nat × α)} {key : Nat} {v : α}
    {p : Nat × α} (hp : p ∈ ainsert l key v) : p = (key, v) ∨ p ∈ l := by
  induction l with
  | nil => simpa [ainsert] using hp
  | cons h t ih =>
    obtain ⟨k1, v1⟩ := h
    by_cases hk : k1 = key
    · rw [ainsert, if_pos hk] at hp
      rcases List.mem_cons.mp hp with h1 | h1
      · exact Or.inl h1
      · exact Or.inr (List.mem_cons_of_mem _ h1)
    · rw [ainsert, if_neg hk] at hp
      rcases List.mem_cons.mp hp with h1 | h1
      · exact Or.inr (by simp [h1])
      · rcases ih h1 with h2 | h2
        · exact Or.inl h2
        · exact Or.inr (List.mem_cons_of_mem _ h2)

theorem alookup_mem {α : Type} {l : List (Nat × α)} {key : Nat} {v : α}
    (h : alookup l key = some v) : (key, v) ∈ l := by
  induction l with
  | nil => cases h
  | cons hd t ih =>
    obtain ⟨k1, v1⟩ := hd
    rw [alookup] at h
    by_cases hk : k1 = key
    · rw [if_pos hk] at h
      cases h
      subst hk
      exact List.mem_cons_self _ _
    · rw [if_neg hk] at h
      exact List.mem_cons_of_mem _ (ih h)

theorem branch_links {u : Universe} {nid : Nat} {pr : Universe × Universe}
    (h : u.branch nid = .ok pr) :
    pr.1.interaction_links = u.interaction_links ∧ pr.2.interaction_links = [] := by
  simp only [Universe.branch] at h
  split_ifs at h
  cases h
  exact ⟨rfl, rfl⟩

/-- Claim C5, amended: `create_interaction` (on a state whose next interaction
id is fresh) and `branch_universe` both preserve invariant I4 — on any state
satisfying the invariant, a successful call yields a state where every
attached interaction id is in the table and lists its universe as an
endpoint: `create_interaction` registers the new id at both endpoints as it
inserts it into the table, and `branch_universe` leaves the table untouched,
gives the child an empty attached set and keeps the parent's set unchanged.
(`collapse_universe` does not preserve the invariant; see the
counterexample.) -/
theorem C5 (k : Kernel) (s t parent_id : Nat) (c : ℚ)
    (h1 : kernelInv k = true)
    (h2 : alookup k.interactions k.next_interaction_id = none) :
    (∀ r, k.create_interaction s t c = .ok r → kernelInv r.2 = true) ∧
    (∀ r, k.branch_universe parent_id = .ok r → kernelInv r.2 = true) := by
  constructor
  · intro r hr
    simp only [Kernel.create_interaction, Interaction.new] at hr
    by_cases hs : (alookup k.universes s).isNone
    · rw [if_pos hs] at hr; cases hr
    rw [if_neg hs] at hr
    by_cases ht : (alookup k.universes t).isNone
    · rw [if_pos ht] at hr; cases hr
    rw [if_neg ht] at hr
    by_cases hc : ¬(0 ≤ c ∧ c ≤ 1)
    · rw [if_pos hc] at hr; cases hr
    rw [if_neg hc] at hr
    cases hr
    set nid := k.next_interaction_id with hnid
    set newi : Interaction := ⟨nid, s, t, c, 0, DEFAULT_DECAY_RATE, 0, 0, [], []⟩ with hnewi
    rw [kernelInv, List.all_eq_true]
    rintro p hp
    rw [List.all_eq_true]
    intro iid hiid
    -- helper closing the goal given a lookup in the *old* table
    have close_old : ∀ (q : Nat × Universe), q ∈ k.universes → iid ∈ q.2.interaction_links →
        q.1 = p.1 →
        (match alookup (ainsert k.interactions nid newi) iid with
          | some i => i.source == p.1 || i.target == p.1
          | none => false) = true := by
      intro q hq hql hq1
      obtain ⟨i, hlk, hio⟩ := inv_lookup h1 hq hql
      have hne : ¬ nid = iid := by
        intro he
        rw [← he] at hlk
        rw [hnid] at hlk
        rw [h2] at hlk
        cases hlk
      rw [alookup_ainsert, if_neg hne, hlk]
      rcases hio with hio | hio <;> simp [hio, hq1]
    have close_new : ∀ (hpe : p.1 = s ∨ p.1 = t), iid = nid →
        (match alookup (ainsert k.interactions nid newi) iid with
          | some i => i.source == p.1 || i.target == p.1
          | none => false) = true := by
      rintro hpe rfl
      rw [alookup_ainsert, if_pos rfl]
      rcases hpe with hpe | hpe <;> simp [hnewi, hpe]
    -- p comes through two aupdates
    rcases mem_aupdate hp with hp1 | ⟨w, hw, rfl⟩
    · -- untouched by the t-update
      rcases mem_aupdate hp1 with hp2 | ⟨v, hv, rfl⟩
      · exact close_old p hp2 hiid rfl
      · -- p = (s, v.add_interaction nid)
        rcases (mem_add_links v nid iid).mp hiid with hm | rfl
        · exact close_old (s, v) hv hm rfl
        · exact close_new (Or.inl rfl) rfl
    · -- p = (t, w.add_interaction nid), w from the s-update
      rcases mem_aupdate hw with hw2 | ⟨v, hv, hvw⟩
      · rcases (mem_add_links w nid iid).mp hiid with hm | rfl
        · exact close_old (t, w) hw2 hm rfl
        · exact close_new (Or.inr rfl) rfl
      · -- s = t: w = v.add_interaction nid, doubly added
        have hts : t = s := ((Prod.mk.injEq _ _ _ _).mp hvw).1
        have hwv : w = v.add_interaction nid := ((Prod.mk.injEq _ _ _ _).mp hvw).2
        subst hwv
        rcases (mem_add_links (v.add_interaction nid) nid iid).mp hiid with hm | rfl
        · rcases (mem_add_links v nid iid).mp hm with hm2 | rfl
          · exact close_old (t, v) (by rw [hts]; exact hv) hm2 rfl
          · exact close_new (Or.inr rfl) rfl
        · exact close_new (Or.inr rfl) rfl
  · intro r hr
    simp only [Kernel.branch_universe] at hr
    split at hr
    · cases hr
    · next parent hpar =>
      split at hr
      · cases hr
      · next parent1 branched hb =>
        cases hr
        rw [kernelInv, List.all_eq_true]
        rintro p hp
        rw [List.all_eq_true]
        intro iid hiid
        -- the interaction table is untouched, so old-table lookups close any
        -- goal about a universe whose attached set comes from the old state
        have close_tbl : ∀ (q : Nat × Universe), q ∈ k.universes →
            iid ∈ q.2.interaction_links → q.1 = p.1 →
            (match alookup k.interactions iid with
              | some i => i.source == p.1 || i.target == p.1
              | none => false) = true := by
          intro q hq hql hq1
          obtain ⟨i, hlk, hio⟩ := inv_lookup h1 hq hql
          rw [hlk]
          rcases hio with hio | hio <;> simp [hio, hq1]
        rcases mem_ainsert hp with rfl | hp2
        · -- p is the freshly branched child: its attached set is empty
          have h0 : iid ∈ branched.interaction_links := hiid
          have hl2 : branched.interaction_links = [] := (branch_links hb).2
          rw [hl2] at h0
          cases h0
        · rcases mem_aupdate hp2 with hp3 | ⟨v, hv, rfl⟩
          · exact close_tbl p hp3 hiid rfl
          · -- p is the updated parent: its attached set is the old parent's
            have h0 : iid ∈ parent1.interaction_links := hiid
            have hl1 : parent1.interaction_links = parent.interaction_links :=
              (branch_links hb).1
            rw [hl1] at h0
            exact close_tbl (parent_id, parent) (alookup_mem hpar) h0 rfl

/-- Claim C5, counterexample: spawn two universes, connect them, then
collapse universe 1 — the interaction disappears from the table while
universe 2 still lists id 1 in its attached set, so invariant I4 fails. -/
theorem C5_counterexample :
    c5kernel.map (fun k =>
      (kernelInv k, (alookup k.universes 2).map (·.interaction_links), k.interactions))
      = .ok (false, some [1], []) := by
  norm_num [c5kernel, Kernel.new, Kernel.spawn_universe, Kernel.create_interaction,
    Kernel.collapse_universe, Interaction.new, Universe.new, Universe.add_interaction,
    InteractionField.register_interaction, kernelInv,
    alookup, ainsert, aupdate, aremove, DEFAULT_DECAY_RATE, maxQ,
    Except.bind, Except.map, bind, pure, Except.pure, StateVector.empty]

/-- Claim C5 witness: on a concrete two-universe kernel, connecting universes
1 and 2 yields the expected state, and branching universe 1 yields the
expected state; both satisfy invariant I4. -/
theorem C5_witness :
    kernelInv
      ({ global_energy := 0
         global_entropy := 0.5
         universes := [(1, { (Universe.new 1 50) with interaction_links := [1] }),
           (2, { (Universe.new 2 5) with interaction_links := [1] })]
         interactions := [(1, ⟨1, 1, 2, 1/2, 0, DEFAULT_DECAY_RATE, 0, 0, [], []⟩)]
         next_universe_id := 7
         next_interaction_id := 2
         evolution_step := 0
         initial_total_energy := 0
         interaction_field := ⟨[(1, [(1, 2)]), (2, [(1, 1)])]⟩
         next_event_id := 1
         history := []
         energy_radiated := 0
         energy_materialized := 0 } : Kernel) = true ∧
    kernelInv
      ({ global_energy := 0
         global_entropy := 0.5
         universes := [(1, { (Universe.new 1 50) with energy := 25, entropy := 1 }),
           (2, Universe.new 2 5),
           (7, ⟨7, StateVector.empty, 25, 0, 0.5, 0, [], 0, 0, 0⟩)]
         interactions := []
         next_universe_id := 8
         next_interaction_id := 1
         evolution_step := 0
         initial_total_energy := 0
         interaction_field := ⟨[]⟩
         next_event_id := 1
         history := []
         energy_radiated := 0
         energy_materialized := 0 } : Kernel) = true := by
  constructor
  · exact (C5 { Kernel.new 0 with
        universes := [(1, Universe.new 1 50), (2, Universe.new 2 5)],
        next_universe_id := 7 }
      1 2 1 (1/2) (by decide) (by decide)).1
      (1,
        { global_energy := 0
          global_entropy := 0.5
          universes := [(1, { (Universe.new 1 50) with interaction_links := [1] }),
            (2, { (Universe.new 2 5) with interaction_links := [1] })]
          interactions := [(1, ⟨1, 1, 2, 1/2, 0, DEFAULT_DECAY_RATE, 0, 0, [], []⟩)]
          next_universe_id := 7
          next_interaction_id := 2
          evolution_step := 0
          initial_total_energy := 0
          interaction_field := ⟨[(1, [(1, 2)]), (2, [(1, 1)])]⟩
          next_event_id := 1
          history := []
          energy_radiated := 0
          energy_materialized := 0 })
      (by norm_num [Kernel.create_interaction, Interaction.new, Kernel.new, Universe.new,
        alookup, ainsert, aupdate, Universe.add_interaction,
        InteractionField.register_interaction, DEFAULT_DECAY_RATE, StateVector.empty])
  · exact (C5 { Kernel.new 0 with
        universes := [(1, Universe.new 1 50), (2, Universe.new 2 5)],
        next_universe_id := 7 }
      1 2 1 (1/2) (by decide) (by decide)).2
      (7,
        { global_energy := 0
          global_entropy := 0.5
          universes := [(1, { (Universe.new 1 50) with energy := 25, entropy := 1 }),
            (2, Universe.new 2 5),
            (7, ⟨7, StateVector.empty, 25, 0, 0.5, 0, [], 0, 0, 0⟩)]
          interactions := []
          next_universe_id := 8
          next_interaction_id := 1
          evolution_step := 0
          initial_total_energy := 0
          interaction_field := ⟨[]⟩
          next_event_id := 1
          history := []
          energy_radiated := 0
          energy_materialized := 0 })
      (by norm_num [Kernel.branch_universe, Universe.branch, Universe.increase_entropy,
        StateVector.potential_energy, StateVector.empty, Kernel.new, Universe.new,
        alookup, ainsert, aupdate])

/-- Claim C6: for a universe with non-negative energy, `transfer_energy delta`
returns the `InsufficientEnergy` error iff `delta < 0 ∧ energy < |delta|`; on
error the universe is unchanged, and on success only the energy changes,
becoming exactly `energy + delta`. -/
theorem C6 (u : Universe) (delta : ℚ) (h : 0 ≤ u.energy) :
    ((u.transfer_energy delta).2 =
        some (.InsufficientEnergy |delta| u.energy) ↔
      delta < 0 ∧ u.energy < |delta|) ∧
    ((u.transfer_energy delta).2.isSome → (u.transfer_energy delta).1 = u) ∧
    ((u.transfer_energy delta).2 = none →
      (u.transfer_energy delta).1 = { u with energy := u.energy + delta }) := by
  have hno : ¬(delta < 0 ∧ u.energy < |delta|) → ¬(u.energy + delta < 0) := by
    intro hn hlt
    rcases le_or_lt 0 delta with hd | hd
    · linarith
    · exact hn ⟨hd, by rw [abs_of_neg hd]; linarith⟩
  unfold Universe.transfer_energy
  by_cases hc : delta < 0 ∧ u.energy < |delta|
  · simp [hc]
  · have h2 := hno hc
    simp [hc, h2]

/-- Claim C6 witness: withdrawing 30 from a 100 J universe does not error and
leaves exactly 70 J. -/
theorem C6_witness :
    (0 : ℚ) ≤ (Universe.new 1 100).energy ∧
    ((((Universe.new 1 100).transfer_energy (-30)).2 =
        some (.InsufficientEnergy |(-30 : ℚ)| (Universe.new 1 100).energy) ↔
      (-30 : ℚ) < 0 ∧ (Universe.new 1 100).energy < |(-30 : ℚ)|) ∧
    (((Universe.new 1 100).transfer_energy (-30)).2.isSome →
      ((Universe.new 1 100).transfer_energy (-30)).1 = Universe.new 1 100) ∧
    (((Universe.new 1 100).transfer_energy (-30)).2 = none →
      ((Universe.new 1 100).transfer_energy (-30)).1 =
        { Universe.new 1 100 with energy := (Universe.new 1 100).energy + (-30) })) :=
  ⟨by norm_num [Universe.new], C6 (Universe.new 1 100) (-30) (by norm_num [Universe.new])⟩

/-- Claim C7, counterexample: snapshot a fresh universe, attach interaction 5
as the mutation, restore — the result keeps the attached id, so it is not
equal to the original-except-entropy universe the claim predicts. -/
theorem C7_counterexample :
    ((Universe.new 1 100).add_interaction 5).restore_from_snapshot
        (Universe.new 1 100).snapshot ≠
      { Universe.new 1 100 with
          entropy := maxQ (Universe.new 1 100).entropy
            (((Universe.new 1 100).add_interaction 5).entropy) } := by
  decide

/-- Claim C7, amended: for every original universe `u` and every
post-mutation state `v`, restoring `u`'s snapshot returns memory, energy,
stability and clock to `u`'s values and sets entropy to
`max(post-mutation, original)`, while every other field (id, interaction
links, timestamps, instruction pointer) keeps its post-mutation value. -/
theorem C7 (u v : Universe) :
    v.restore_from_snapshot u.snapshot =
      { v with state_vector := u.state_vector, energy := u.energy,
               entropy := maxQ v.entropy u.entropy,
               stability_score := u.stability_score,
               timeline_index := u.timeline_index } := rfl

/-- Claim C8, counterexample: the per-call clock increment does not decrease
as interactions accumulate — with three attached interactions the increment
is 1, exactly as with none. -/
theorem C8_counterexample :
    ({ Universe.new 1 100 with interaction_links := [1, 2, 3] } : Universe).advance_time.timeline_index
        - ({ Universe.new 1 100 with interaction_links := [1, 2, 3] } : Universe).timeline_index = 1 ∧
    (Universe.new 1 100).advance_time.timeline_index
        - (Universe.new 1 100).timeline_index = 1 := by
  constructor
  · norm_num [Universe.advance_time, Universe.interaction_density, Universe.new]
    rw [Int.ceil_eq_iff]
    norm_num
  · norm_num [Universe.advance_time, Universe.interaction_density, Universe.new]

/-- Claim C8, amended: `advance_time` adds `⌈1/(1+density)⌉` to the local
clock, and that ceiling equals 1 for every density — the per-call increment
is constant, so the clock never dilates. -/
theorem C8 (u : Universe) :
    u.advance_time.timeline_index = u.timeline_index + 1 := by
  simp only [Universe.advance_time, Universe.interaction_density]
  split_ifs with h
  · have h0 : (0 : ℚ) ≤ (u.interaction_links.length : ℚ) := Nat.cast_nonneg _
    have h1 : (0 : ℚ) < 1 + (u.interaction_links.length : ℚ) := by linarith
    have hc : (⌈((1 : ℚ) + (u.interaction_links.length : ℚ))⁻¹⌉ : ℤ) = 1 := by
      have hpos : (0 : ℚ) < (1 + (u.interaction_links.length : ℚ))⁻¹ := by positivity
      have hle : ((1 : ℚ) + (u.interaction_links.length : ℚ))⁻¹ ≤ 1 :=
        inv_le_one_of_one_le₀ (by linarith)
      rw [Int.ceil_eq_iff]
      constructor
      · push_cast
        linarith
      · push_cast
        exact hle
    simp [one_div, hc]
  · rfl

/-- Claim C9: assembling `SET 100 42 / SIGNAL 3 "hi" / HALT` produces exactly
the bytes `01 64 2A F0 03 02 68 69 FF`. -/
theorem C9 :
    assemble c9Source = .ok [0x01, 0x64, 0x2A, 0xF0, 0x03, 0x02, 0x68, 0x69, 0xFF] := rfl

theorem rd_lt {m : List Nat} {i : Nat} (h : i < m.length) :
    rd m i = some (m.getD i 0) := by
  simp [rd, h]

theorem wr_lt {m : List Nat} {i : Nat} (v : Nat) (h : i < m.length) :
    wr m i v = some (m.set i v) := by
  simp [wr, h]

theorem writeSeq_total :
    ∀ (vs : List Nat) (m : List Nat) (d : Nat), d + vs.length ≤ m.length →
      ∃ m2, writeSeq m d vs = some m2 ∧ m2.length = m.length := by
  intro vs
  induction vs with
  | nil => exact fun m d _ => ⟨m, rfl, rfl⟩
  | cons v t ih =>
    intro m d h
    simp only [List.length_cons] at h
    have hd : d < m.length := by omega
    obtain ⟨m2, hm2, hl⟩ := ih (m.set d v) (d + 1)
      (by simp only [List.length_set]; omega)
    refine ⟨m2, ?_, by simp only [List.length_set] at hl; exact hl⟩
    rw [writeSeq, wr_lt v hd]
    simpa using hm2

theorem step_total (cfn : List Nat → List Nat) (m : List Nat) (ip : Nat) :
    ∃ out, UniversalProcessor.step cfn m ip = some out ∧ out.1.length = m.length := by
  unfold UniversalProcessor.step
  by_cases hip : ip ≥ m.length
  · rw [if_pos hip]
    exact ⟨_, rfl, rfl⟩
  rw [if_neg hip]
  have h1 : ip < m.length := lt_of_not_ge hip
  rw [rd_lt h1]
  simp only [Option.bind_eq_bind, Option.some_bind]
  split
  -- NoOp
  case _ => exact ⟨_, rfl, rfl⟩
  -- AtomSet
  case _ =>
    by_cases h2 : ip + 2 < m.length
    · rw [if_pos h2, rd_lt (show ip + 1 < m.length by omega),
        rd_lt (show ip + 2 < m.length by omega)]
      simp only [Option.bind_eq_bind, Option.some_bind]
      by_cases ha : m.length > m.getD (ip + 1) 0
      · rw [if_pos ha, rd_lt (show m.getD (ip + 1) 0 < m.length by omega)]
        simp only [Option.bind_eq_bind, Option.some_bind]
        rw [wr_lt _ (show m.getD (ip + 1) 0 < m.length by omega)]
        simp only [Option.bind_eq_bind, Option.some_bind]
        exact ⟨_, rfl, by simp⟩
      · rw [if_neg ha]
        exact ⟨_, rfl, rfl⟩
    · rw [if_neg h2]
      exact ⟨_, rfl, rfl⟩
  -- AtomXor
  case _ =>
    by_cases h2 : ip + 2 < m.length
    · rw [if_pos h2, rd_lt (show ip + 1 < m.length by omega),
        rd_lt (show ip + 2 < m.length by omega)]
      simp only [Option.bind_eq_bind, Option.some_bind]
      by_cases ha : m.length > m.getD (ip + 1) 0
      · rw [if_pos ha, rd_lt (show m.getD (ip + 1) 0 < m.length by omega)]
        simp only [Option.bind_eq_bind, Option.some_bind]
        rw [wr_lt _ (show m.getD (ip + 1) 0 < m.length by omega)]
        simp only [Option.bind_eq_bind, Option.some_bind]
        exact ⟨_, rfl, by simp⟩
      · rw [if_neg ha]
        exact ⟨_, rfl, rfl⟩
    · rw [if_neg h2]
      exact ⟨_, rfl, rfl⟩
  -- AtomCopy
  case _ =>
    by_cases h2 : ip + 3 < m.length
    · rw [if_pos h2, rd_lt (show ip + 1 < m.length by omega),
        rd_lt (show ip + 2 < m.length by omega), rd_lt (show ip + 3 < m.length by omega)]
      simp only [Option.bind_eq_bind, Option.some_bind]
      by_cases ha : m.getD (ip + 1) 0 + m.getD (ip + 3) 0 ≤ m.length ∧
          m.getD (ip + 2) 0 + m.getD (ip + 3) 0 ≤ m.length
      · rw [if_pos ha,
          show sliceRd m (m.getD (ip + 1) 0) (m.getD (ip + 3) 0)
            = some ((m.drop (m.getD (ip + 1) 0)).take (m.getD (ip + 3) 0)) from by
          rw [sliceRd, if_pos ha.1]]
        simp only [Option.bind_eq_bind, Option.some_bind]
        obtain ⟨m2, hm2, hl⟩ := writeSeq_total
          ((m.drop (m.getD (ip + 1) 0)).take (m.getD (ip + 3) 0)) m
          (m.getD (ip + 2) 0) (by
            have hle : ((m.drop (m.getD (ip + 1) 0)).take (m.getD (ip + 3) 0)).length
                ≤ m.getD (ip + 3) 0 := by simp
            omega)
        rw [hm2]
        simp only [Option.bind_eq_bind, Option.some_bind]
        exact ⟨_, rfl, hl⟩
      · rw [if_neg ha]
        exact ⟨_, rfl, rfl⟩
    · rw [if_neg h2]
      exact ⟨_, rfl, rfl⟩
  -- Add
  case _ =>
    by_cases h2 : ip + 2 < m.length
    · rw [if_pos h2, rd_lt (show ip + 1 < m.length by omega),
        rd_lt (show ip + 2 < m.length by omega)]
      simp only [Option.bind_eq_bind, Option.some_bind]
      by_cases ha : m.getD (ip + 1) 0 < m.length ∧ m.getD (ip + 2) 0 < m.length
      · rw [if_pos ha, rd_lt ha.1, rd_lt ha.2]
        simp only [Option.bind_eq_bind, Option.some_bind]
        rw [wr_lt _ ha.1]
        simp only [Option.bind_eq_bind, Option.some_bind]
        exact ⟨_, rfl, by simp⟩
      · rw [if_neg ha]
        exact ⟨_, rfl, rfl⟩
    · rw [if_neg h2]
      exact ⟨_, rfl, rfl⟩
  -- Sub
  case _ =>
    by_cases h2 : ip + 2 < m.length
    · rw [if_pos h2, rd_lt (show ip + 1 < m.length by omega),
        rd_lt (show ip + 2 < m.length by omega)]
      simp only [Option.bind_eq_bind, Option.some_bind]
      by_cases ha : m.getD (ip + 1) 0 < m.length ∧ m.getD (ip + 2) 0 < m.length
      · rw [if_pos ha, rd_lt ha.1, rd_lt ha.2]
        simp only [Option.bind_eq_bind, Option.some_bind]
        rw [wr_lt _ ha.1]
        simp only [Option.bind_eq_bind, Option.some_bind]
        exact ⟨_, rfl, by simp⟩
      · rw [if_neg ha]
        exact ⟨_, rfl, rfl⟩
    · rw [if_neg h2]
      exact ⟨_, rfl, rfl⟩
  -- Cmp
  case _ =>
    by_cases h2 : ip + 3 < m.length
    · rw [if_pos h2, rd_lt (show ip + 1 < m.length by omega),
        rd_lt (show ip + 2 < m.length by omega), rd_lt (show ip + 3 < m.length by omega)]
      simp only [Option.bind_eq_bind, Option.some_bind]
      by_cases ha : m.getD (ip + 1) 0 < m.length ∧ m.getD (ip + 2) 0 < m.length ∧
          m.getD (ip + 3) 0 < m.length
      · rw [if_pos ha, rd_lt ha.1, rd_lt ha.2.1]
        simp only [Option.bind_eq_bind, Option.some_bind]
        rw [wr_lt _ ha.2.2]
        simp only [Option.bind_eq_bind, Option.some_bind]
        exact ⟨_, rfl, by simp⟩
      · rw [if_neg ha]
        exact ⟨_, rfl, rfl⟩
    · rw [if_neg h2]
      exact ⟨_, rfl, rfl⟩
  -- Jump
  case _ =>
    by_cases h2 : ip + 1 < m.length
    · rw [if_pos h2, rd_lt (show ip + 1 < m.length by omega)]
      simp only [Option.bind_eq_bind, Option.some_bind]
      exact ⟨_, rfl, rfl⟩
    · rw [if_neg h2]
      exact ⟨_, rfl, rfl⟩
  -- JumpIf
  case _ =>
    by_cases h2 : ip + 2 < m.length
    · rw [if_pos h2, rd_lt (show ip + 1 < m.length by omega),
        rd_lt (show ip + 2 < m.length by omega)]
      simp only [Option.bind_eq_bind, Option.some_bind]
      by_cases ha : m.length > m.getD (ip + 1) 0
      · rw [if_pos ha, rd_lt (show m.getD (ip + 1) 0 < m.length by omega)]
        simp only [Option.bind_eq_bind, Option.some_bind]
        by_cases hc : m.getD (m.getD (ip + 1) 0) 0 ≠ 0
        · rw [if_pos hc]
          exact ⟨_, rfl, rfl⟩
        · rw [if_neg hc]
          exact ⟨_, rfl, rfl⟩
      · rw [if_neg ha]
        exact ⟨_, rfl, rfl⟩
    · rw [if_neg h2]
      exact ⟨_, rfl, rfl⟩
  -- Call
  case _ =>
    by_cases h2 : ip + 1 < m.length
    · rw [if_pos h2, rd_lt (show ip + 1 < m.length by omega)]
      simp only [Option.bind_eq_bind, Option.some_bind]
      by_cases hsp : 255 < m.length
      · rw [if_pos hsp, rd_lt hsp]
        simp only [Option.bind_eq_bind, Option.some_bind]
        by_cases hs : m.getD 255 0 > 0 ∧ m.getD 255 0 < m.length
        · rw [if_pos hs, wr_lt _ hs.2]
          simp only [Option.bind_eq_bind, Option.some_bind]
          rw [rd_lt (show (255 : Nat) < (m.set (m.getD 255 0) ((ip + 2) % 256)).length
            from by simp only [List.length_set]; omega)]
          simp only [Option.bind_eq_bind, Option.some_bind]
          rw [wr_lt _ (show (255 : Nat) < (m.set (m.getD 255 0) ((ip + 2) % 256)).length
            from by simp only [List.length_set]; omega)]
          simp only [Option.bind_eq_bind, Option.some_bind]
          exact ⟨_, rfl, by simp⟩
        · rw [if_neg hs]
          exact ⟨_, rfl, rfl⟩
      · rw [if_neg hsp]
        exact ⟨_, rfl, rfl⟩
    · rw [if_neg h2]
      exact ⟨_, rfl, rfl⟩
  -- Ret
  case _ =>
    by_cases hsp : 255 < m.length
    · rw [if_pos hsp, rd_lt hsp]
      simp only [Option.bind_eq_bind, Option.some_bind]
      by_cases hs : wadd (m.getD 255 0) 1 < m.length
      · rw [if_pos hs, wr_lt _ hsp]
        simp only [Option.bind_eq_bind, Option.some_bind]
        rw [rd_lt (show wadd (m.getD 255 0) 1 < (m.set 255 (wadd (m.getD 255 0) 1)).length
          from by simp only [List.length_set]; omega)]
        simp only [Option.bind_eq_bind, Option.some_bind]
        exact ⟨_, rfl, by simp⟩
      · rw [if_neg hs]
        exact ⟨_, rfl, rfl⟩
    · rw [if_neg hsp]
      exact ⟨_, rfl, rfl⟩
  -- Push
  case _ =>
    by_cases h2 : ip + 1 < m.length
    · rw [if_pos h2, rd_lt (show ip + 1 < m.length by omega)]
      simp only [Option.bind_eq_bind, Option.some_bind]
      by_cases ha : m.getD (ip + 1) 0 < m.length ∧ 255 < m.length
      · rw [if_pos ha, rd_lt ha.2]
        simp only [Option.bind_eq_bind, Option.some_bind]
        by_cases hs : m.getD 255 0 > 0 ∧ m.getD 255 0 < m.length
        · rw [if_pos hs, rd_lt ha.1]
          simp only [Option.bind_eq_bind, Option.some_bind]
          rw [wr_lt _ hs.2]
          simp only [Option.bind_eq_bind, Option.some_bind]
          rw [rd_lt (show (255 : Nat)
              < (m.set (m.getD 255 0) (m.getD (m.getD (ip + 1) 0) 0)).length
            from by simp only [List.length_set]; omega)]
          simp only [Option.bind_eq_bind, Option.some_bind]
          rw [wr_lt _ (show (255 : Nat)
              < (m.set (m.getD 255 0) (m.getD (m.getD (ip + 1) 0) 0)).length
            from by simp only [List.length_set]; omega)]
          simp only [Option.bind_eq_bind, Option.some_bind]
          exact ⟨_, rfl, by simp⟩
        · rw [if_neg hs]
          exact ⟨_, rfl, rfl⟩
      · rw [if_neg ha]
        exact ⟨_, rfl, rfl⟩
    · rw [if_neg h2]
      exact ⟨_, rfl, rfl⟩
  -- Pop
  case _ =>
    by_cases h2 : ip + 1 < m.length
    · rw [if_pos h2, rd_lt (show ip + 1 < m.length by omega)]
      simp only [Option.bind_eq_bind, Option.some_bind]
      by_cases ha : m.getD (ip + 1) 0 < m.length ∧ 255 < m.length
      · rw [if_pos ha]
        rw [rd_lt ha.2]
        simp only [Option.bind_eq_bind, Option.some_bind]
        by_cases hs : wadd (m.getD 255 0) 1 < m.length
        · rw [if_pos hs, wr_lt _ ha.2]
          simp only [Option.bind_eq_bind, Option.some_bind]
          rw [rd_lt (show wadd (m.getD 255 0) 1
              < (m.set 255 (wadd (m.getD 255 0) 1)).length
            from by simp only [List.length_set]; omega)]
          simp only [Option.bind_eq_bind, Option.some_bind]
          rw [wr_lt _ (show m.getD (ip + 1) 0
              < (m.set 255 (wadd (m.getD 255 0) 1)).length
            from by simp only [List.length_set]; omega)]
          simp only [Option.bind_eq_bind, Option.some_bind]
          exact ⟨_, rfl, by simp⟩
        · rw [if_neg hs]
          exact ⟨_, rfl, rfl⟩
      · rw [if_neg ha]
        exact ⟨_, rfl, rfl⟩
    · rw [if_neg h2]
      exact ⟨_, rfl, rfl⟩
  -- Signal
  case _ =>
    by_cases h2 : ip + 3 < m.length
    · rw [if_pos h2, rd_lt (show ip + 1 < m.length by omega),
        rd_lt (show ip + 2 < m.length by omega)]
      simp only [Option.bind_eq_bind, Option.some_bind]
      by_cases ha : ip + 3 + m.getD (ip + 2) 0 ≤ m.length
      · rw [if_pos ha,
          show sliceRd m (ip + 3) (m.getD (ip + 2) 0)
            = some ((m.drop (ip + 3)).take (m.getD (ip + 2) 0)) from by
          rw [sliceRd, if_pos ha]]
        simp only [Option.bind_eq_bind, Option.some_bind]
        exact ⟨_, rfl, rfl⟩
      · rw [if_neg ha]
        exact ⟨_, rfl, rfl⟩
    · rw [if_neg h2]
      exact ⟨_, rfl, rfl⟩
  -- Entangle
  case _ =>
    by_cases h2 : ip + 2 < m.length
    · rw [if_pos h2, rd_lt (show ip + 1 < m.length by omega),
        rd_lt (show ip + 2 < m.length by omega)]
      simp only [Option.bind_eq_bind, Option.some_bind]
      exact ⟨_, rfl, rfl⟩
    · rw [if_neg h2]
      exact ⟨_, rfl, rfl⟩
  -- Observe
  case _ =>
    by_cases h2 : ip + 3 < m.length
    · rw [if_pos h2, rd_lt (show ip + 1 < m.length by omega),
        rd_lt (show ip + 2 < m.length by omega), rd_lt (show ip + 3 < m.length by omega)]
      simp only [Option.bind_eq_bind, Option.some_bind]
      exact ⟨_, rfl, rfl⟩
    · rw [if_neg h2]
      exact ⟨_, rfl, rfl⟩
  -- Revert
  case _ =>
    by_cases h2 : ip + 1 < m.length
    · rw [if_pos h2, rd_lt (show ip + 1 < m.length by omega)]
      simp only [Option.bind_eq_bind, Option.some_bind]
      exact ⟨_, rfl, rfl⟩
    · rw [if_neg h2]
      exact ⟨_, rfl, rfl⟩
  -- Branch
  case _ =>
    by_cases h2 : ip + 2 < m.length
    · rw [if_pos h2, rd_lt (show ip + 1 < m.length by omega),
        rd_lt (show ip + 2 < m.length by omega)]
      simp only [Option.bind_eq_bind, Option.some_bind]
      exact ⟨_, rfl, rfl⟩
    · rw [if_neg h2]
      exact ⟨_, rfl, rfl⟩
  -- MemAlloc
  case _ =>
    by_cases h2 : ip + 2 < m.length
    · rw [if_pos h2]
      exact ⟨_, rfl, rfl⟩
    · rw [if_neg h2]
      exact ⟨_, rfl, rfl⟩
  -- MemMap
  case _ =>
    by_cases h2 : ip + 2 < m.length
    · rw [if_pos h2]
      exact ⟨_, rfl, rfl⟩
    · rw [if_neg h2]
      exact ⟨_, rfl, rfl⟩
  -- MemSwap
  case _ =>
    by_cases h2 : ip + 1 < m.length
    · rw [if_pos h2, rd_lt (show ip + 1 < m.length by omega)]
      simp only [Option.bind_eq_bind, Option.some_bind]
      exact ⟨_, rfl, rfl⟩
    · rw [if_neg h2]
      exact ⟨_, rfl, rfl⟩
  -- Halt
  case _ => exact ⟨_, rfl, rfl⟩

theorem step_fault (cfn : List Nat → List Nat) (m : List Nat) (ip : Nat)
    (h1 : ip < m.length) (hf : operandsOutOfRange m ip = true) :
    UniversalProcessor.step cfn m ip =
      some (m, ip + (if (OpCode.from_u8 (m.getD ip 0)).getD .NoOp = .Signal then 2 else 1),
        0.0001, none) := by
  unfold UniversalProcessor.step
  rw [if_neg (by omega : ¬ ip ≥ m.length), rd_lt h1]
  simp only [Option.bind_eq_bind, Option.some_bind]
  unfold operandsOutOfRange at hf
  split
  -- NoOp
  next x heq =>
    rw [heq] at hf
    simp at hf
  -- AtomSet
  next x heq =>
    simp only [heq, operandCheckOff, decide_eq_true_eq] at hf
    rw [if_neg hf, heq, if_neg (by decide)]
  -- AtomXor
  next x heq =>
    simp only [heq, operandCheckOff, decide_eq_true_eq] at hf
    rw [if_neg hf, heq, if_neg (by decide)]
  -- AtomCopy
  next x heq =>
    simp only [heq, operandCheckOff, decide_eq_true_eq] at hf
    rw [if_neg hf, heq, if_neg (by decide)]
  -- Add
  next x heq =>
    simp only [heq, operandCheckOff, decide_eq_true_eq] at hf
    rw [if_neg hf, heq, if_neg (by decide)]
  -- Sub
  next x heq =>
    simp only [heq, operandCheckOff, decide_eq_true_eq] at hf
    rw [if_neg hf, heq, if_neg (by decide)]
  -- Cmp
  next x heq =>
    simp only [heq, operandCheckOff, decide_eq_true_eq] at hf
    rw [if_neg hf, heq, if_neg (by decide)]
  -- Jump
  next x heq =>
    simp only [heq, operandCheckOff, decide_eq_true_eq] at hf
    rw [if_neg hf, heq, if_neg (by decide)]
  -- JumpIf
  next x heq =>
    simp only [heq, operandCheckOff, decide_eq_true_eq] at hf
    rw [if_neg hf, heq, if_neg (by decide)]
  -- Call
  next x heq =>
    simp only [heq, operandCheckOff, decide_eq_true_eq] at hf
    rw [if_neg hf, heq, if_neg (by decide)]
  -- Ret
  next x heq =>
    rw [heq] at hf
    simp at hf
  -- Push
  next x heq =>
    simp only [heq, operandCheckOff, decide_eq_true_eq] at hf
    rw [if_neg hf, heq, if_neg (by decide)]
  -- Pop
  next x heq =>
    simp only [heq, operandCheckOff, decide_eq_true_eq] at hf
    rw [if_neg hf, heq, if_neg (by decide)]
  -- Signal
  next x heq =>
    simp only [heq, decide_eq_true_eq] at hf
    rw [heq, if_pos rfl]
    by_cases hA : ip + 3 < m.length
    · rw [if_pos hA, rd_lt (show ip + 1 < m.length by omega),
        rd_lt (show ip + 2 < m.length by omega)]
      simp only [Option.bind_eq_bind, Option.some_bind]
      have hB : ¬ (ip + 3 + m.getD (ip + 2) 0 ≤ m.length) := fun hB => hf ⟨hA, hB⟩
      rw [if_neg hB]
    · rw [if_neg hA]
  -- Entangle
  next x heq =>
    simp only [heq, operandCheckOff, decide_eq_true_eq] at hf
    rw [if_neg hf, heq, if_neg (by decide)]
  -- Observe
  next x heq =>
    simp only [heq, operandCheckOff, decide_eq_true_eq] at hf
    rw [if_neg hf, heq, if_neg (by decide)]
  -- Revert
  next x heq =>
    simp only [heq, operandCheckOff, decide_eq_true_eq] at hf
    rw [if_neg hf, heq, if_neg (by decide)]
  -- Branch
  next x heq =>
    simp only [heq, operandCheckOff, decide_eq_true_eq] at hf
    rw [if_neg hf, heq, if_neg (by decide)]
  -- MemAlloc
  next x heq =>
    simp only [heq, operandCheckOff, decide_eq_true_eq] at hf
    rw [if_neg hf, heq, if_neg (by decide)]
  -- MemMap
  next x heq =>
    simp only [heq, operandCheckOff, decide_eq_true_eq] at hf
    rw [if_neg hf, heq, if_neg (by decide)]
  -- MemSwap
  next x heq =>
    simp only [heq, operandCheckOff, decide_eq_true_eq] at hf
    rw [if_neg hf, heq, if_neg (by decide)]
  -- Halt
  next x heq =>
    rw [heq] at hf
    simp at hf

/-- Claim C2, counterexample: a SIGNAL opcode whose operands do not fit
leaves memory unchanged but advances the instruction pointer by 2, not past
the opcode alone (which would be 1). -/
theorem C2_counterexample :
    UniversalProcessor.step id [0xF0] 0 = some ([0xF0], 2, 0.0001, none) ∧
    operandsOutOfRange [0xF0] 0 = true ∧
    (2 : Nat) ≠ 0 + 1 :=
  ⟨rfl, by decide, by decide⟩

/-- Claim C2, amended: a single VM step never reads or writes memory out of
bounds (the instrumented step, which fails exactly where the Rust indexing
would panic, always returns a result, and the memory length is preserved);
when an instruction's operand bytes are out of range the step leaves memory
unchanged, emits nothing, and advances the instruction pointer past the
opcode alone — except SIGNAL, which advances it by 2. -/
theorem C2 (cfn : List Nat → List Nat) (m : List Nat) (ip : Nat) :
    (∃ out, UniversalProcessor.step cfn m ip = some out ∧ out.1.length = m.length) ∧
    (ip < m.length → operandsOutOfRange m ip = true →
      UniversalProcessor.step cfn m ip =
        some (m, ip + (if (OpCode.from_u8 (m.getD ip 0)).getD .NoOp = .Signal then 2 else 1),
          0.0001, none)) :=
  ⟨step_total cfn m ip, fun h1 hf => step_fault cfn m ip h1 hf⟩

/-- Claim C2 witness: a SET opcode at the end of memory has its operands out
of range; the step returns the unchanged memory and advances by 1. -/
theorem C2_witness :
    0 < ([0x01] : List Nat).length ∧ operandsOutOfRange [0x01] 0 = true ∧
    UniversalProcessor.step id [0x01] 0 =
      some ([0x01],
        0 + (if (OpCode.from_u8 (([0x01] : List Nat).getD 0 0)).getD .NoOp = .Signal
          then 2 else 1), 0.0001, none) :=
  ⟨by decide, by decide, (C2 id [0x01] 0).2 (by decide) (by decide)⟩

theorem get?_isSome_of_le {l : List Nat} {n : Nat} (h : n < l.length) :
    ∃ x, l.get? n = some x := by
  cases hg : l.get? n with
  | none => rw [List.get?_eq_none] at hg; omega
  | some x => exact ⟨x, rfl⟩

theorem route_missing_source (k : Kernel) (ev : CausalEvent)
    (hsrc : alookup k.universes ev.source = none)
    (hdata : 2 ≤ ev.data.raw.length) (hhist : k.history = []) :
    ∃ k3, k.route_event ev = .ok k3 ∧ k3.universes = k.universes ∧
      (k3.global_energy = k.global_energy ∨
        k3.global_energy = k.global_energy + ev.energy_payload) ∧
      (k3.energy_radiated = k.energy_radiated ∨
        k3.energy_radiated = k.energy_radiated + ev.energy_payload) ∧
      k3.next_event_id = k.next_event_id := by
  obtain ⟨x0, hx0⟩ := get?_isSome_of_le (l := ev.data.raw) (n := 0) (by omega)
  obtain ⟨x1, hx1⟩ := get?_isSome_of_le (l := ev.data.raw) (n := 1) (by omega)
  cases hty : ev.event_type
  case Entangle =>
    simp only [Kernel.route_event, hty, hx0, Kernel.create_interaction, hsrc,
      Option.isNone_none, if_true]
    exact ⟨_, rfl, rfl, Or.inr rfl, Or.inl rfl, rfl⟩
  case Observation =>
    simp only [Kernel.route_event, hty]
    cases hl : alookup k.universes ev.target with
    | none =>
      exact ⟨_, rfl, rfl, Or.inr rfl, Or.inl rfl, rfl⟩
    | some t =>
      simp only [hx0, hx1, hsrc]
      exact ⟨_, rfl, rfl, Or.inr rfl, Or.inl rfl, rfl⟩
  case Reversion =>
    simp only [Kernel.route_event, hty, hx0, Kernel.rewind, hhist, List.isEmpty_nil,
      if_true]
    exact ⟨_, rfl, rfl, Or.inr rfl, Or.inl rfl, rfl⟩
  case Branch =>
    simp only [Kernel.route_event, hty, hx0, Kernel.branch_universe, hsrc]
    exact ⟨_, rfl, rfl, Or.inr rfl, Or.inl rfl, rfl⟩
  case Signal =>
    simp only [Kernel.route_event, hty]
    by_cases htgt : (alookup k.universes ev.target).isSome
    · rw [if_pos htgt]
      cases hfind : k.interactions.find? (fun p =>
          (p.2.source == ev.source && p.2.target == ev.target)
            || (p.2.source == ev.target && p.2.target == ev.source)) with
      | none => exact ⟨_, rfl, rfl, Or.inl rfl, Or.inl rfl, rfl⟩
      | some pr =>
        obtain ⟨iid, i⟩ := pr
        have hpred := List.find?_some hfind
        simp only [Bool.or_eq_true, Bool.and_eq_true, beq_iff_eq] at hpred
        simp only [Interaction.push_event]
        by_cases hfw : ev.source = i.source ∧ ev.target = i.target
        · rw [if_pos hfw]
          exact ⟨_, rfl, rfl, Or.inl rfl, Or.inl rfl, rfl⟩
        · rw [if_neg hfw]
          have hbw : ev.source = i.target ∧ ev.target = i.source := by
            rcases hpred with ⟨hp1, hp2⟩ | ⟨hp1, hp2⟩
            · exact absurd ⟨hp1.symm, hp2.symm⟩ hfw
            · exact ⟨hp2.symm, hp1.symm⟩
          rw [if_pos hbw]
          exact ⟨_, rfl, rfl, Or.inl rfl, Or.inl rfl, rfl⟩
    · rw [if_neg htgt]
      exact ⟨_, rfl, rfl, Or.inl rfl, Or.inr rfl, rfl⟩
  case EnergyTransfer =>
    simp only [Kernel.route_event, hty]
    by_cases htgt : (alookup k.universes ev.target).isSome
    · rw [if_pos htgt]
      cases hfind : k.interactions.find? (fun p =>
          (p.2.source == ev.source && p.2.target == ev.target)
            || (p.2.source == ev.target && p.2.target == ev.source)) with
      | none => exact ⟨_, rfl, rfl, Or.inl rfl, Or.inl rfl, rfl⟩
      | some pr =>
        obtain ⟨iid, i⟩ := pr
        have hpred := List.find?_some hfind
        simp only [Bool.or_eq_true, Bool.and_eq_true, beq_iff_eq] at hpred
        simp only [Interaction.push_event]
        by_cases hfw : ev.source = i.source ∧ ev.target = i.target
        · rw [if_pos hfw]
          exact ⟨_, rfl, rfl, Or.inl rfl, Or.inl rfl, rfl⟩
        · rw [if_neg hfw]
          have hbw : ev.source = i.target ∧ ev.target = i.source := by
            rcases hpred with ⟨hp1, hp2⟩ | ⟨hp1, hp2⟩
            · exact absurd ⟨hp1.symm, hp2.symm⟩ hfw
            · exact ⟨hp2.symm, hp1.symm⟩
          rw [if_pos hbw]
          exact ⟨_, rfl, rfl, Or.inl rfl, Or.inl rfl, rfl⟩
    · rw [if_neg htgt]
      exact ⟨_, rfl, rfl, Or.inl rfl, Or.inr rfl, rfl⟩
  case StateMigration =>
    simp only [Kernel.route_event, hty]
    by_cases htgt : (alookup k.universes ev.target).isSome
    · rw [if_pos htgt]
      cases hfind : k.interactions.find? (fun p =>
          (p.2.source == ev.source && p.2.target == ev.target)
            || (p.2.source == ev.target && p.2.target == ev.source)) with
      | none => exact ⟨_, rfl, rfl, Or.inl rfl, Or.inl rfl, rfl⟩
      | some pr =>
        obtain ⟨iid, i⟩ := pr
        have hpred := List.find?_some hfind
        simp only [Bool.or_eq_true, Bool.and_eq_true, beq_iff_eq] at hpred
        simp only [Interaction.push_event]
        by_cases hfw : ev.source = i.source ∧ ev.target = i.target
        · rw [if_pos hfw]
          exact ⟨_, rfl, rfl, Or.inl rfl, Or.inl rfl, rfl⟩
        · rw [if_neg hfw]
          have hbw : ev.source = i.target ∧ ev.target = i.source := by
            rcases hpred with ⟨hp1, hp2⟩ | ⟨hp1, hp2⟩
            · exact absurd ⟨hp1.symm, hp2.symm⟩ hfw
            · exact ⟨hp2.symm, hp1.symm⟩
          rw [if_pos hbw]
          exact ⟨_, rfl, rfl, Or.inl rfl, Or.inl rfl, rfl⟩
    · rw [if_neg htgt]
      exact ⟨_, rfl, rfl, Or.inl rfl, Or.inr rfl, rfl⟩
  case Cancellation =>
    simp only [Kernel.route_event, hty]
    by_cases htgt : (alookup k.universes ev.target).isSome
    · rw [if_pos htgt]
      cases hfind : k.interactions.find? (fun p =>
          (p.2.source == ev.source && p.2.target == ev.target)
            || (p.2.source == ev.target && p.2.target == ev.source)) with
      | none => exact ⟨_, rfl, rfl, Or.inl rfl, Or.inl rfl, rfl⟩
      | some pr =>
        obtain ⟨iid, i⟩ := pr
        have hpred := List.find?_some hfind
        simp only [Bool.or_eq_true, Bool.and_eq_true, beq_iff_eq] at hpred
        simp only [Interaction.push_event]
        by_cases hfw : ev.source = i.source ∧ ev.target = i.target
        · rw [if_pos hfw]
          exact ⟨_, rfl, rfl, Or.inl rfl, Or.inl rfl, rfl⟩
        · rw [if_neg hfw]
          have hbw : ev.source = i.target ∧ ev.target = i.source := by
            rcases hpred with ⟨hp1, hp2⟩ | ⟨hp1, hp2⟩
            · exact absurd ⟨hp1.symm, hp2.symm⟩ hfw
            · exact ⟨hp2.symm, hp1.symm⟩
          rw [if_pos hbw]
          exact ⟨_, rfl, rfl, Or.inl rfl, Or.inl rfl, rfl⟩
    · rw [if_neg htgt]
      exact ⟨_, rfl, rfl, Or.inl rfl, Or.inr rfl, rfl⟩

/-- Claim C10: calling `spawn_event` with a source universe id absent from
the table returns no error — the event gets a fresh id and is routed with its
full payload, the universe table is untouched (no debit anywhere), the
global pool never decreases (it gains the payload only when a system event
recycles it), and radiated only grows by the payload when the target is
remote.  (The data-length and empty-history hypotheses keep the run away
from the `data.raw()` index panics and the `Reversion` rewind, which are
orthogonal to the missing-source behaviour.) -/
theorem C10 (k : Kernel) (src tgt : Nat) (ty : EventType) (data : List Nat)
    (e : ℚ) (hsrc : alookup k.universes src = none) (hdata : 2 ≤ data.length)
    (hhist : k.history = []) :
    ∃ k2, k.spawn_event src tgt ty data e = .ok (k.next_event_id, k2) ∧
      k2.universes = k.universes ∧
      (k2.global_energy = k.global_energy ∨ k2.global_energy = k.global_energy + e) ∧
      (k2.energy_radiated = k.energy_radiated ∨
        k2.energy_radiated = k.energy_radiated + e) ∧
      k2.next_event_id = k.next_event_id + 1 := by
  obtain ⟨k3, hroute, hu, hg, hr, hn⟩ := route_missing_source
    { k with next_event_id := k.next_event_id + 1 }
    ⟨k.next_event_id, ty, src, tgt, e, StateVector.from_raw data,
      k.evolution_step, none⟩
    hsrc (by simpa [StateVector.from_raw, StateVector.raw] using hdata) hhist
  refine ⟨k3, ?_, hu, hg, hr, by rw [hn]⟩
  simp only [Kernel.spawn_event, hsrc]
  rw [hroute]

/-- Claim C10 witness: spawning a 5 J signal from the non-existent universe 1
of an empty kernel succeeds with event id 1 and no debit. -/
theorem C10_witness :
    alookup (Kernel.new 0).universes 1 = none ∧ 2 ≤ ([0, 0] : List Nat).length ∧
    (Kernel.new 0).history = [] ∧
    (∃ k2, (Kernel.new 0).spawn_event 1 2 .Signal [0, 0] 5
        = .ok ((Kernel.new 0).next_event_id, k2) ∧
      k2.universes = (Kernel.new 0).universes ∧
      (k2.global_energy = (Kernel.new 0).global_energy ∨
        k2.global_energy = (Kernel.new 0).global_energy + 5) ∧
      (k2.energy_radiated = (Kernel.new 0).energy_radiated ∨
        k2.energy_radiated = (Kernel.new 0).energy_radiated + 5) ∧
      k2.next_event_id = (Kernel.new 0).next_event_id + 1) :=
  ⟨rfl, by decide, rfl, C10 (Kernel.new 0) 1 2 .Signal [0, 0] 5 rfl (by decide) rfl⟩
